import Mathlib

/-!
# Verification of the BuildingGeneratorV2 room-generation core

Shallow embedding of the grid occupancy model and the placement algorithms of
`BuildingGenerator` (RoomGenerator.cpp, RoomGenerationHelpers.cpp,
ChunkyRoomGenerator.cpp, RoomActor.cpp topology pass), together with theorems
settling the frozen claims about them.

Machine `int32` values are modelled as `Int` (no computation here approaches
the 32-bit range), `float` world-space quantities as `ℚ` (the source only adds,
subtracts, multiplies and halves them), and `TArray<T>` as `List T` with the
`IsValidIndex` bounds guard made explicit.
-/

namespace BuildingGen

/-- `FIntPoint`: a 2-component integer vector. -/
structure IntPt where
  x : Int
  y : Int
deriving DecidableEq, Repr

/-- Componentwise addition, as `FIntPoint::operator+`. -/
def IntPt.add (a b : IntPt) : IntPt := ⟨a.x + b.x, a.y + b.y⟩

/-- `EGridCellType` from GridData.h. -/
inductive EGridCellType where
  | ECT_Empty
  | ECT_FloorMesh
  | ECT_WallMesh
  | ECT_Doorway
  | ECT_Reserved
  | ECT_Custom
  | ECT_Void
deriving DecidableEq, Repr

/-- `EWallEdge` (North/South/East/West wall edges). -/
inductive EWallEdge where
  | North
  | South
  | East
  | West
deriving DecidableEq, Repr, Fintype

/-- `TArray` read with the `IsValidIndex` guard: `none` when the `int32`
index is negative or past the end. -/
def listGet (l : List α) (i : Int) : Option α :=
  if 0 ≤ i then l[i.toNat]? else none

/-- `TArray` write under an `IsValidIndex`-style guard: out-of-range writes
leave the array unchanged (the source always guards its writes). -/
def listSet (l : List α) (i : Int) (v : α) : List α :=
  if 0 ≤ i then l.set i.toNat v else l

/-- `TArray::AddUnique`. -/
def addUnique [DecidableEq α] (l : List α) (v : α) : List α :=
  if v ∈ l then l else l ++ [v]

/-! ## URoomGenerationHelpers (RoomGenerationHelpers.cpp) -/

namespace Helpers

/-- `URoomGenerationHelpers::IsValidGridCoordinate`. -/
def IsValidGridCoordinate (coord gridSize : IntPt) : Bool :=
  coord.x ≥ 0 && coord.x < gridSize.x && coord.y ≥ 0 && coord.y < gridSize.y

/-- `URoomGenerationHelpers::IndexToCoordinate`.  C++ `/` and `%` truncate
toward zero, hence `Int.tdiv`/`Int.tmod`. -/
def IndexToCoordinate (index : Int) (gridWidth : Int) : IntPt :=
  if gridWidth ≤ 0 then ⟨0, 0⟩
  else ⟨index.tdiv gridWidth, index.tmod gridWidth⟩

/-- `URoomGenerationHelpers::CoordinateToIndex`. -/
def CoordinateToIndex (coord : IntPt) (gridWidth : Int) : Int :=
  coord.y * gridWidth + coord.x

/-- `URoomGenerationHelpers::IsAreaAvailable`. -/
def IsAreaAvailable (gridState : List EGridCellType) (gridSize startCoord size : IntPt)
    (requiredType : EGridCellType) : Bool :=
  if startCoord.x + size.x > gridSize.x ∨ startCoord.y + size.y > gridSize.y then false
  else if ! IsValidGridCoordinate startCoord gridSize then false
  else
    (List.range size.y.toNat).all fun dy =>
      (List.range size.x.toNat).all fun dx =>
        let checkCoord : IntPt := ⟨startCoord.x + dx, startCoord.y + dy⟩
        let index := CoordinateToIndex checkCoord gridSize.x
        match listGet gridState index with
        | none => false
        | some s => s == requiredType

/-- `URoomGenerationHelpers::MarkCellsOccupied`. -/
def MarkCellsOccupied (gridState : List EGridCellType) (gridSize startCoord size : IntPt)
    (cellType : EGridCellType) : List EGridCellType :=
  (List.range size.y.toNat).foldl
    (fun gs dy =>
      (List.range size.x.toNat).foldl
        (fun gs' dx =>
          let cellCoord : IntPt := ⟨startCoord.x + dx, startCoord.y + dy⟩
          if IsValidGridCoordinate cellCoord gridSize then
            listSet gs' (CoordinateToIndex cellCoord gridSize.x) cellType
          else gs')
        gs)
    gridState

/-- `URoomGenerationHelpers::TryPlaceMeshInGrid`: availability check against
the target type, then mark; returns the success flag and the new grid. -/
def TryPlaceMeshInGrid (gridState : List EGridCellType) (gridSize startCoord size : IntPt)
    (targetCellType placementType : EGridCellType) : Bool × List EGridCellType :=
  if ! IsAreaAvailable gridState gridSize startCoord size targetCellType then
    (false, gridState)
  else
    (true, MarkCellsOccupied gridState gridSize startCoord size placementType)

/-- `URoomGenerationHelpers::GetRotatedFootprint` (also
`URoomGenerator::GetRotatedFootprint`, same body). -/
def GetRotatedFootprint (originalFootprint : IntPt) (rotationDegrees : Int) : IntPt :=
  let r0 := rotationDegrees.tmod 360
  let r := if r0 < 0 then r0 + 360 else r0
  if r = 90 ∨ r = 270 then ⟨originalFootprint.y, originalFootprint.x⟩
  else originalFootprint

/-- `URoomGenerationHelpers::GetEdgeCellIndices`: the virtual boundary cells
just outside the interior grid, per edge. -/
def GetEdgeCellIndices (edge : EWallEdge) (gridSize : IntPt) : List IntPt :=
  match edge with
  | .North => (List.range gridSize.y.toNat).map fun (y : Nat) => (⟨gridSize.x, (y : Int)⟩ : IntPt)
  | .South => (List.range gridSize.y.toNat).map fun (y : Nat) => (⟨-1, (y : Int)⟩ : IntPt)
  | .East  => (List.range gridSize.x.toNat).map fun (x : Nat) => (⟨(x : Int), gridSize.y⟩ : IntPt)
  | .West  => (List.range gridSize.x.toNat).map fun (x : Nat) => (⟨(x : Int), -1⟩ : IntPt)

end Helpers

/-! ## URoomGenerator grid management (RoomGenerator.cpp) -/

namespace RoomGen

/-- `URoomGenerator::GridCoordToIndex`: row-major `Y * Width + X`. -/
def GridCoordToIndex (gridSize : IntPt) (gridCoord : IntPt) : Int :=
  gridCoord.y * gridSize.x + gridCoord.x

/-- `URoomGenerator::IndexToGridCoord`: `X = Index % Width`, `Y = Index / Width`
(C++ truncating division). -/
def IndexToGridCoord (gridSize : IntPt) (index : Int) : IntPt :=
  ⟨index.tmod gridSize.x, index.tdiv gridSize.x⟩

/-- `URoomGenerator::IsValidGridCoordinate` (member version). -/
def IsValidGridCoordinate (gridSize : IntPt) (gridCoord : IntPt) : Bool :=
  gridCoord.x ≥ 0 && gridCoord.x < gridSize.x && gridCoord.y ≥ 0 && gridCoord.y < gridSize.y

/-- `URoomGenerator::GetCellState`: out-of-bounds reads return `ECT_Empty`. -/
def GetCellState (gridState : List EGridCellType) (gridSize : IntPt) (gridCoord : IntPt) :
    EGridCellType :=
  if ! IsValidGridCoordinate gridSize gridCoord then .ECT_Empty
  else (listGet gridState (GridCoordToIndex gridSize gridCoord)).getD .ECT_Empty

/-- `URoomGenerator::SetCellState`: bounds-checked single-cell write. -/
def SetCellState (gridState : List EGridCellType) (gridSize : IntPt) (gridCoord : IntPt)
    (newState : EGridCellType) : List EGridCellType :=
  if ! IsValidGridCoordinate gridSize gridCoord then gridState
  else listSet gridState (GridCoordToIndex gridSize gridCoord) newState

/-- `URoomGenerator::MarkArea`: availability is tested against the hard-coded
`ECT_Empty`, then the cells are marked; returns the success flag and
resulting grid. -/
def MarkArea (gridState : List EGridCellType) (gridSize startCoord size : IntPt)
    (cellType : EGridCellType) : Bool × List EGridCellType :=
  if ! Helpers.IsAreaAvailable gridState gridSize startCoord size .ECT_Empty then
    (false, gridState)
  else
    (true, Helpers.MarkCellsOccupied gridState gridSize startCoord size cellType)

/-- `URoomGenerator::GetCellCountByType`. -/
def GetCellCountByType (gridState : List EGridCellType) (cellType : EGridCellType) : Nat :=
  (gridState.filter (fun c => c == cellType)).length

end RoomGen

/-! ### Spec-side vocabulary for rectangles of cells -/

/-- A coordinate lies in the `size.x × size.y` rectangle whose minimum corner
is `start`. -/
def InRect (p startCoord size : IntPt) : Prop :=
  startCoord.x ≤ p.x ∧ p.x < startCoord.x + size.x ∧
  startCoord.y ≤ p.y ∧ p.y < startCoord.y + size.y

/-- A coordinate is within the grid bounds. -/
def InBounds (p gridSize : IntPt) : Prop :=
  0 ≤ p.x ∧ p.x < gridSize.x ∧ 0 ≤ p.y ∧ p.y < gridSize.y

/-- The cell state stored for a coordinate in the row-major array
(`some` only when the row-major index is a valid array index). -/
def cellAt (gridState : List EGridCellType) (gridSize : IntPt) (p : IntPt) :
    Option EGridCellType :=
  listGet gridState (Helpers.CoordinateToIndex p gridSize.x)

lemma match_opt_eq_some (o : Option EGridCellType) (req : EGridCellType) :
    (match o with | none => false | some s => s == req) = true ↔ o = some req := by
  cases o <;> simp

@[simp] lemma IntPt.mk_x (a b : Int) : (IntPt.mk a b).x = a := rfl

@[simp] lemma IntPt.mk_y (a b : Int) : (IntPt.mk a b).y = b := rfl

lemma inRect_mk {p startCoord size : IntPt}
    (h1 : startCoord.x ≤ p.x) (h2 : p.x < startCoord.x + size.x)
    (h3 : startCoord.y ≤ p.y) (h4 : p.y < startCoord.y + size.y) :
    InRect p startCoord size := ⟨h1, h2, h3, h4⟩

lemma isAreaAvailable_true_forall {gs : List EGridCellType} {sz startCoord size : IntPt}
    {req : EGridCellType}
    (h : Helpers.IsAreaAvailable gs sz startCoord size req = true) :
    ∀ p, InRect p startCoord size → InBounds p sz ∧ cellAt gs sz p = some req := by
  intro p hp
  obtain ⟨hx0, hx1, hy0, hy1⟩ := hp
  unfold Helpers.IsAreaAvailable at h
  split at h
  · simp at h
  · split at h
    · simp at h
    · rename_i hover hvalid
      rw [not_or, not_lt, not_lt] at hover
      have hvalid' : Helpers.IsValidGridCoordinate startCoord sz = true := by
        revert hvalid
        cases Helpers.IsValidGridCoordinate startCoord sz <;> simp
      simp only [Helpers.IsValidGridCoordinate, Bool.and_eq_true, decide_eq_true_eq] at hvalid'
      obtain ⟨⟨⟨hsx0, _⟩, hsy0⟩, _⟩ := hvalid'
      obtain ⟨hover1, hover2⟩ := hover
      refine ⟨⟨by omega, by omega, by omega, by omega⟩, ?_⟩
      simp only [List.all_eq_true, List.mem_range] at h
      have hdy : (p.y - startCoord.y).toNat < size.y.toNat := by omega
      have hdx : (p.x - startCoord.x).toNat < size.x.toNat := by omega
      have h3 : listGet gs (Helpers.CoordinateToIndex
          ⟨startCoord.x + (((p.x - startCoord.x).toNat : Nat) : Int),
            startCoord.y + (((p.y - startCoord.y).toNat : Nat) : Int)⟩ sz.x) = some req :=
        (match_opt_eq_some _ _).mp (h _ hdy _ hdx)
      have e1 : startCoord.x + (((p.x - startCoord.x).toNat : Nat) : Int) = p.x := by omega
      have e2 : startCoord.y + (((p.y - startCoord.y).toNat : Nat) : Int) = p.y := by omega
      rw [e1, e2] at h3
      exact h3

lemma isAreaAvailable_of_forall {gs : List EGridCellType} {sz startCoord size : IntPt}
    {req : EGridCellType} (hx : 1 ≤ size.x) (hy : 1 ≤ size.y)
    (h : ∀ p, InRect p startCoord size → InBounds p sz ∧ cellAt gs sz p = some req) :
    Helpers.IsAreaAvailable gs sz startCoord size req = true := by
  have hstart := h startCoord (inRect_mk (le_refl _) (by omega) (le_refl _) (by omega))
  have hxe := h ⟨startCoord.x + size.x - 1, startCoord.y⟩
    (inRect_mk (show startCoord.x ≤ startCoord.x + size.x - 1 by omega)
      (show startCoord.x + size.x - 1 < startCoord.x + size.x by omega)
      (show startCoord.y ≤ startCoord.y from le_refl _)
      (show startCoord.y < startCoord.y + size.y by omega))
  have hye := h ⟨startCoord.x, startCoord.y + size.y - 1⟩
    (inRect_mk (show startCoord.x ≤ startCoord.x from le_refl _)
      (show startCoord.x < startCoord.x + size.x by omega)
      (show startCoord.y ≤ startCoord.y + size.y - 1 by omega)
      (show startCoord.y + size.y - 1 < startCoord.y + size.y by omega))
  obtain ⟨hb1, hb2, hb3, hb4⟩ := hstart.1
  have hxb : startCoord.x + size.x - 1 < sz.x := hxe.1.2.1
  have hyb : startCoord.y + size.y - 1 < sz.y := hye.1.2.2.2
  unfold Helpers.IsAreaAvailable
  rw [if_neg (by omega)]
  have hv : Helpers.IsValidGridCoordinate startCoord sz = true := by
    unfold Helpers.IsValidGridCoordinate
    simp only [Bool.and_eq_true, decide_eq_true_eq]
    exact ⟨⟨⟨hb1, hb2⟩, hb3⟩, hb4⟩
  rw [if_neg (by simp [hv])]
  simp only [List.all_eq_true, List.mem_range]
  intro dy hdy dx hdx
  show (match listGet gs (Helpers.CoordinateToIndex
      ⟨startCoord.x + (dx : Int), startCoord.y + (dy : Int)⟩ sz.x) with
    | none => false
    | some s => s == req) = true
  rw [match_opt_eq_some]
  exact (h ⟨startCoord.x + dx, startCoord.y + dy⟩
    (inRect_mk (show startCoord.x ≤ startCoord.x + (dx : Int) by omega)
      (show startCoord.x + (dx : Int) < startCoord.x + size.x by omega)
      (show startCoord.y ≤ startCoord.y + (dy : Int) by omega)
      (show startCoord.y + (dy : Int) < startCoord.y + size.y by omega))).2

lemma isAreaAvailable_false_of_out {gs : List EGridCellType} {sz startCoord size : IntPt}
    {req : EGridCellType}
    (h : startCoord.x < 0 ∨ startCoord.y < 0 ∨ sz.x < startCoord.x + size.x ∨
      sz.y < startCoord.y + size.y) :
    Helpers.IsAreaAvailable gs sz startCoord size req = false := by
  unfold Helpers.IsAreaAvailable
  by_cases hc : startCoord.x + size.x > sz.x ∨ startCoord.y + size.y > sz.y
  · rw [if_pos hc]
  · rw [if_neg hc]
    rw [not_or, not_lt, not_lt] at hc
    rw [if_pos]
    simp only [Bool.not_eq_true', Helpers.IsValidGridCoordinate]
    simp only [Bool.and_eq_false_iff, decide_eq_false_iff_not, not_le, not_lt]
    omega

/-- C9: `IsAreaAvailable(gridState, gridSize, start, size, requiredType)` is
true iff every cell of the `size.X × size.Y` rectangle with minimum corner
`start` is within the grid bounds and holds `requiredType`; any rectangle that
extends outside the grid (including one with a negative start coordinate) is
rejected wholesale. -/
theorem C9_isAreaAvailable_characterization (gs : List EGridCellType)
    (sz startCoord size : IntPt) (req : EGridCellType)
    (hx : 1 ≤ size.x) (hy : 1 ≤ size.y) :
    (Helpers.IsAreaAvailable gs sz startCoord size req = true ↔
      ∀ p, InRect p startCoord size → InBounds p sz ∧ cellAt gs sz p = some req) ∧
    ((startCoord.x < 0 ∨ startCoord.y < 0 ∨ sz.x < startCoord.x + size.x ∨
        sz.y < startCoord.y + size.y) →
      Helpers.IsAreaAvailable gs sz startCoord size req = false) := by
  refine ⟨⟨fun h => isAreaAvailable_true_forall h, fun h => isAreaAvailable_of_forall hx hy h⟩,
    fun h => isAreaAvailable_false_of_out h⟩

/-- Witness for C9 at a concrete input: a 2×2 rectangle at (1,1) in an
all-Empty 3×3 grid is available for `ECT_Empty`. -/
theorem C9_witness :
    (1 : Int) ≤ 2 ∧
      (Helpers.IsAreaAvailable (List.replicate 9 .ECT_Empty) ⟨3, 3⟩ ⟨1, 1⟩ ⟨2, 2⟩
          .ECT_Empty = true ↔
        ∀ p, InRect p ⟨1, 1⟩ ⟨2, 2⟩ →
          InBounds p ⟨3, 3⟩ ∧ cellAt (List.replicate 9 .ECT_Empty) ⟨3, 3⟩ p =
            some .ECT_Empty) := by
  refine ⟨by decide, (C9_isAreaAvailable_characterization _ _ _ _ _ (by decide) (by decide)).1⟩

/-- C10: `URoomGenerator::MarkArea` succeeds only when every cell of the
rectangle is in-bounds and currently `ECT_Empty` (it tests against the
hard-coded `ECT_Empty`, never `ECT_Custom`, so an all-Custom chunky interior is
refused), and on failure the grid state is returned completely unchanged. -/
theorem C10_markArea_empty_only_and_atomic (gs : List EGridCellType)
    (sz startCoord size : IntPt) (cellType : EGridCellType) :
    ((RoomGen.MarkArea gs sz startCoord size cellType).1 = true →
      ∀ p, InRect p startCoord size →
        InBounds p sz ∧ cellAt gs sz p = some .ECT_Empty) ∧
    ((RoomGen.MarkArea gs sz startCoord size cellType).1 = true →
      ∀ p, InRect p startCoord size → cellAt gs sz p ≠ some .ECT_Custom) ∧
    ((RoomGen.MarkArea gs sz startCoord size cellType).1 = false →
      (RoomGen.MarkArea gs sz startCoord size cellType).2 = gs) := by
  refine ⟨?_, ?_, ?_⟩
  · intro h p hp
    unfold RoomGen.MarkArea at h
    split at h
    · simp at h
    · rename_i havail
      simp only [Bool.not_eq_true', Bool.not_eq_false] at havail
      exact isAreaAvailable_true_forall havail p hp
  · intro h p hp
    unfold RoomGen.MarkArea at h
    split at h
    · simp at h
    · rename_i havail
      simp only [Bool.not_eq_true', Bool.not_eq_false] at havail
      have := (isAreaAvailable_true_forall havail p hp).2
      simp [this]
  · intro h
    unfold RoomGen.MarkArea at h ⊢
    split at h
    · rename_i havail
      rw [if_pos havail]
    · simp at h

/-! ## C3: coordinate/index conversions -/

/-- C3 counterexample: (2,3) is a valid coordinate of a 10×10 grid, but the
static helper pair is not mutually inverse on it:
`IndexToCoordinate(CoordinateToIndex((2,3),10),10) = (3,2)`. -/
theorem C3_counterexample_helpers_not_inverse :
    Helpers.IsValidGridCoordinate ⟨2, 3⟩ ⟨10, 10⟩ = true ∧
    Helpers.CoordinateToIndex ⟨2, 3⟩ 10 = 32 ∧
    Helpers.IndexToCoordinate (Helpers.CoordinateToIndex ⟨2, 3⟩ 10) 10 = ⟨3, 2⟩ ∧
    Helpers.IndexToCoordinate (Helpers.CoordinateToIndex ⟨2, 3⟩ 10) 10 ≠
      (⟨2, 3⟩ : IntPt) := by
  decide

/-- C3 (amended): both conversion pairs use row-major `index = y·width + x`;
the generator pair `GridCoordToIndex`/`IndexToGridCoord` is mutually inverse on
every valid coordinate, while the static helper pair returns the transposed
coordinate `(y, x)` (hence is not mutually inverse off the diagonal). -/
theorem C3_roundtrip_generator_inverse_helpers_transposed
    (gridSize coord : IntPt) (h : Helpers.IsValidGridCoordinate coord gridSize = true) :
    RoomGen.GridCoordToIndex gridSize coord = coord.y * gridSize.x + coord.x ∧
    Helpers.CoordinateToIndex coord gridSize.x = coord.y * gridSize.x + coord.x ∧
    RoomGen.IndexToGridCoord gridSize (RoomGen.GridCoordToIndex gridSize coord) = coord ∧
    Helpers.IndexToCoordinate (Helpers.CoordinateToIndex coord gridSize.x) gridSize.x =
      ⟨coord.y, coord.x⟩ := by
  simp only [Helpers.IsValidGridCoordinate, Bool.and_eq_true, decide_eq_true_eq] at h
  obtain ⟨⟨⟨hx0, hx1⟩, hy0⟩, hy1⟩ := h
  have hw : (0 : Int) < gridSize.x := by omega
  have hidx : coord.y * gridSize.x + coord.x = coord.x + gridSize.x * coord.y := by ring
  have hnn : 0 ≤ coord.y * gridSize.x + coord.x := by
    have : 0 ≤ coord.y * gridSize.x := mul_nonneg hy0 (le_of_lt hw)
    omega
  have hdiv : (coord.y * gridSize.x + coord.x) / gridSize.x = coord.y := by
    rw [hidx, Int.add_mul_ediv_left _ _ (ne_of_gt hw), Int.ediv_eq_zero_of_lt hx0 hx1]
    ring
  have hmod : (coord.y * gridSize.x + coord.x) % gridSize.x = coord.x := by
    rw [hidx, Int.add_mul_emod_self_left, Int.emod_eq_of_lt hx0 hx1]
  refine ⟨rfl, rfl, ?_, ?_⟩
  · unfold RoomGen.IndexToGridCoord RoomGen.GridCoordToIndex
    rw [Int.tmod_eq_emod hnn (le_of_lt hw), Int.tdiv_eq_ediv hnn (le_of_lt hw), hdiv, hmod]
  · unfold Helpers.IndexToCoordinate Helpers.CoordinateToIndex
    rw [if_neg (by omega)]
    rw [Int.tmod_eq_emod hnn (le_of_lt hw), Int.tdiv_eq_ediv hnn (le_of_lt hw), hdiv, hmod]

/-- Witness for C3 at (2,3) in a 10×10 grid. -/
theorem C3_witness :
    RoomGen.IndexToGridCoord ⟨10, 10⟩ (RoomGen.GridCoordToIndex ⟨10, 10⟩ ⟨2, 3⟩) = ⟨2, 3⟩ ∧
    Helpers.IndexToCoordinate (Helpers.CoordinateToIndex ⟨2, 3⟩ 10) 10 = ⟨3, 2⟩ :=
  ⟨(C3_roundtrip_generator_inverse_helpers_transposed ⟨10, 10⟩ ⟨2, 3⟩ (by decide)).2.2.1,
    (C3_roundtrip_generator_inverse_helpers_transposed ⟨10, 10⟩ ⟨2, 3⟩ (by decide)).2.2.2⟩

/-! ## Topology analyzer (RoomActor.cpp, URoomGenerator::AnalyzeTopology) -/

/-- `ECellDirection` from GridData.h. -/
inductive ECellDirection where
  | North
  | East
  | South
  | West
deriving DecidableEq, Repr, Fintype

/-- `ECellZone` from GridData.h. -/
inductive ECellZone where
  | Empty
  | Center
  | Border
  | Corner
  | ExternalCorner
  | InternalCorner
  | Door
  | DeadEnd
deriving DecidableEq, Repr

namespace Topo

/-- `URoomGenerator::GetNeighborCell` (North = +Y, East = +X, South = −Y,
West = −X in this function's convention). -/
def GetNeighborCell (cell : IntPt) : ECellDirection → IntPt
  | .North => ⟨cell.x, cell.y + 1⟩
  | .East => ⟨cell.x + 1, cell.y⟩
  | .South => ⟨cell.x, cell.y - 1⟩
  | .West => ⟨cell.x - 1, cell.y⟩

/-- `URoomGenerator::AreDirectionsAdjacent`: the pairs N-E, E-S, S-W, W-N
(in either order) are adjacent. -/
def AreDirectionsAdjacent (d1 d2 : ECellDirection) : Bool :=
  if (d1 == .North && d2 == .East) || (d1 == .East && d2 == .North) then true
  else if (d1 == .East && d2 == .South) || (d1 == .South && d2 == .East) then true
  else if (d1 == .South && d2 == .West) || (d1 == .West && d2 == .South) then true
  else if (d1 == .West && d2 == .North) || (d1 == .North && d2 == .West) then true
  else false

/-- The raw grid-state read `GridState[Y*W+X]` used by the topology pass. -/
def stateAt (gs : List EGridCellType) (sz : IntPt) (c : IntPt) : EGridCellType :=
  (cellAt gs sz c).getD .ECT_Empty

/-- A cell state counts as occupied for the topology pass
(`ECT_FloorMesh` or `ECT_Custom`). -/
def isOccupiedState (s : EGridCellType) : Bool :=
  s == .ECT_FloorMesh || s == .ECT_Custom

/-- `URoomGenerator::CountOccupiedNeighbors`. -/
def CountOccupiedNeighbors (gs : List EGridCellType) (sz cell : IntPt) : Nat :=
  (([ECellDirection.North, .East, .South, .West]).filter fun d =>
    let n := GetNeighborCell cell d
    RoomGen.IsValidGridCoordinate sz n && isOccupiedState (stateAt gs sz n)).length

/-- `URoomGenerator::DetectWalls`: a direction is a wall when the neighbor is
out of bounds, or its state is `ECT_Empty` or `ECT_Void`. -/
def DetectWalls (gs : List EGridCellType) (sz cell : IntPt) : List ECellDirection :=
  ([ECellDirection.North, .East, .South, .West]).filter fun d =>
    let n := GetNeighborCell cell d
    if ! RoomGen.IsValidGridCoordinate sz n then true
    else
      let s := stateAt gs sz n
      s == .ECT_Empty || s == .ECT_Void

/-- `URoomGenerator::ClassifyCellZone` (the `NeighborCount` parameter is
unused by the source, exactly as here). -/
def ClassifyCellZone (_neighborCount : Nat) (wallDirections : List ECellDirection) :
    ECellZone :=
  let wallCount := wallDirections.length
  if wallCount = 3 then .DeadEnd
  else if wallCount = 2 then
    match wallDirections with
    | [d1, d2] => if AreDirectionsAdjacent d1 d2 then .Corner else .Border
    | _ => .Center
  else if wallCount = 1 then .Border
  else if wallCount = 0 then .Center
  else .Center

/-- `FCellData` (the fields the topology pass fills). -/
structure FCellData where
  coordinates : IntPt
  cellZone : ECellZone
  bIsOccupied : Bool
  wallDirections : List ECellDirection
deriving DecidableEq, Repr

/-- `URoomGenerator::AnalyzeTopology`: one pass over the grid in row-major
scan order, producing the cell-metadata map (modelled as an association list
in insertion order) for every occupied cell. -/
def AnalyzeTopology (gs : List EGridCellType) (sz : IntPt) : List (IntPt × FCellData) :=
  (List.range sz.y.toNat).flatMap fun (y : Nat) =>
    (List.range sz.x.toNat).filterMap fun (x : Nat) =>
      let cell : IntPt := ⟨(x : Int), (y : Int)⟩
      if isOccupiedState (stateAt gs sz cell) then
        let walls := DetectWalls gs sz cell
        let nc := CountOccupiedNeighbors gs sz cell
        some (cell, ⟨cell, ClassifyCellZone nc walls, true, walls⟩)
      else none

end Topo

/-- Spec-side notion of opposite cardinal directions. -/
def oppositeDir : ECellDirection → ECellDirection
  | .North => .South
  | .South => .North
  | .East => .West
  | .West => .East

lemma areDirectionsAdjacent_iff (d1 d2 : ECellDirection) :
    Topo.AreDirectionsAdjacent d1 d2 = true ↔ d1 ≠ d2 ∧ d2 ≠ oppositeDir d1 := by
  cases d1 <;> cases d2 <;> decide

lemma classifyCellZone_rules (nc : Nat) (walls : List ECellDirection) :
    (walls.length = 3 → Topo.ClassifyCellZone nc walls = .DeadEnd) ∧
    (∀ d1 d2, walls = [d1, d2] →
      Topo.ClassifyCellZone nc walls =
        if d1 ≠ d2 ∧ d2 ≠ oppositeDir d1 then .Corner else .Border) ∧
    (walls.length = 1 → Topo.ClassifyCellZone nc walls = .Border) ∧
    (walls.length = 0 → Topo.ClassifyCellZone nc walls = .Center) := by
  refine ⟨?_, ?_, ?_, ?_⟩
  · intro h
    simp [Topo.ClassifyCellZone, h]
  · rintro d1 d2 rfl
    cases d1 <;> cases d2 <;>
      simp [Topo.ClassifyCellZone, Topo.AreDirectionsAdjacent, oppositeDir]
  · intro h
    simp [Topo.ClassifyCellZone, h]
  · intro h
    simp [Topo.ClassifyCellZone, h]

lemma mem_analyzeTopology {gs : List EGridCellType} {sz : IntPt} {cell : IntPt}
    {cd : Topo.FCellData} :
    (cell, cd) ∈ Topo.AnalyzeTopology gs sz ↔
      (∃ x : Nat, x < sz.x.toNat ∧ ∃ y : Nat, y < sz.y.toNat ∧ cell = ⟨x, y⟩) ∧
      Topo.isOccupiedState (Topo.stateAt gs sz cell) = true ∧
      cd = ⟨cell, Topo.ClassifyCellZone (Topo.CountOccupiedNeighbors gs sz cell)
        (Topo.DetectWalls gs sz cell), true, Topo.DetectWalls gs sz cell⟩ := by
  unfold Topo.AnalyzeTopology
  simp only [List.mem_flatMap, List.mem_filterMap, List.mem_range,
    Option.ite_none_right_eq_some, Option.some.injEq, Prod.mk.injEq]
  constructor
  · rintro ⟨y, hy, x, hx, hocc, hcell, hcd⟩
    subst hcell
    exact ⟨⟨x, hx, y, hy, rfl⟩, hocc, hcd.symm⟩
  · rintro ⟨⟨x, hx, y, hy, rfl⟩, hocc, hcd⟩
    exact ⟨y, hy, x, hx, hocc, rfl, hcd.symm⟩

/-- C4 counterexample: in a 1×2 grid `[FloorMesh, Doorway]`, the occupied cell
(0,0) has its North neighbor (0,1) in bounds and NOT occupied (it is a doorway
cell), yet North is not recorded as a wall — refuting "a direction is a wall
exactly when the neighbor is out-of-bounds or not occupied". -/
theorem C4_counterexample_nonoccupied_neighbor_not_wall :
    ∃ cd, (⟨0, 0⟩, cd) ∈ Topo.AnalyzeTopology [.ECT_FloorMesh, .ECT_Doorway] ⟨1, 2⟩ ∧
      RoomGen.IsValidGridCoordinate ⟨1, 2⟩ (Topo.GetNeighborCell ⟨0, 0⟩ .North) = true ∧
      Topo.isOccupiedState
        (Topo.stateAt [.ECT_FloorMesh, .ECT_Doorway] ⟨1, 2⟩
          (Topo.GetNeighborCell ⟨0, 0⟩ .North)) = false ∧
      .North ∉ cd.wallDirections := by
  refine ⟨⟨⟨0, 0⟩, .DeadEnd, true, [.East, .South, .West]⟩, ?_⟩
  decide

/-- C4 (amended): for every occupied cell of the grid, the analyzer records a
direction as a wall exactly when the neighbor in that direction is
out-of-bounds or its state is `ECT_Empty` or `ECT_Void` (a reserved, doorway
or wall-boundary neighbor is neither occupied nor a wall), and the zone
follows the wall count: 3 walls → dead end, 2 adjacent walls → corner,
2 opposite walls → border, 1 wall → border, 0 walls → center. -/
theorem C4_topology_walls_and_zones (gs : List EGridCellType) (sz : IntPt) :
    (∀ cell cd, (cell, cd) ∈ Topo.AnalyzeTopology gs sz →
      (∀ d, d ∈ cd.wallDirections ↔
        (¬ RoomGen.IsValidGridCoordinate sz (Topo.GetNeighborCell cell d) = true ∨
          Topo.stateAt gs sz (Topo.GetNeighborCell cell d) = .ECT_Empty ∨
          Topo.stateAt gs sz (Topo.GetNeighborCell cell d) = .ECT_Void)) ∧
      (cd.wallDirections.length = 3 → cd.cellZone = .DeadEnd) ∧
      (∀ d1 d2, cd.wallDirections = [d1, d2] →
        cd.cellZone = if d1 ≠ d2 ∧ d2 ≠ oppositeDir d1 then .Corner else .Border) ∧
      (cd.wallDirections.length = 1 → cd.cellZone = .Border) ∧
      (cd.wallDirections.length = 0 → cd.cellZone = .Center)) ∧
    (∀ cell, InBounds cell sz → Topo.isOccupiedState (Topo.stateAt gs sz cell) = true →
      ∃ cd, (cell, cd) ∈ Topo.AnalyzeTopology gs sz) := by
  constructor
  · intro cell cd hmem
    obtain ⟨-, -, hcd⟩ := mem_analyzeTopology.mp hmem
    subst hcd
    have hrules := classifyCellZone_rules (Topo.CountOccupiedNeighbors gs sz cell)
      (Topo.DetectWalls gs sz cell)
    refine ⟨?_, hrules.1, hrules.2.1, hrules.2.2.1, hrules.2.2.2⟩
    intro d
    show d ∈ Topo.DetectWalls gs sz cell ↔ _
    unfold Topo.DetectWalls
    rw [List.mem_filter]
    constructor
    · rintro ⟨-, hpred⟩
      revert hpred
      dsimp only
      split
      · rename_i hval
        intro _
        left
        simpa using hval
      · rename_i hval
        intro hs
        rcases Bool.or_eq_true .. ▸ hs with h | h
        · exact Or.inr (Or.inl (by simpa using h))
        · exact Or.inr (Or.inr (by simpa using h))
    · intro hd
      refine ⟨by cases d <;> simp, ?_⟩
      dsimp only
      split
      · rfl
      · rename_i hval
        rcases hd with h | h | h
        · exact absurd (by simpa using hval) h
        · simp [h]
        · simp [h]
  · intro cell hb hocc
    obtain ⟨h1, h2, h3, h4⟩ := hb
    refine ⟨_, mem_analyzeTopology.mpr
      ⟨⟨cell.x.toNat, by omega, cell.y.toNat, by omega, ?_⟩, hocc, rfl⟩⟩
    cases cell with
    | mk cx cy =>
      simp only [IntPt.mk_x, IntPt.mk_y] at h1 h3 ⊢
      simp only [IntPt.mk.injEq]
      constructor <;> omega

/-! ## Floor placement records and forced placements (RoomGenerator.cpp) -/

/-- A 3-component rational vector (`FVector`; the source only adds and scales
world positions, which is exact over `ℚ`). -/
structure Vec3 where
  x : ℚ
  y : ℚ
  z : ℚ
deriving DecidableEq, Repr

/-- Componentwise `FVector` addition. -/
def Vec3.add (a b : Vec3) : Vec3 := ⟨a.x + b.x, a.y + b.y, a.z + b.z⟩

/-- An `FTransform` restricted to what the placement code puts in it: a
rotator (pitch, yaw, roll in degrees) and a location; scale is always 1. -/
structure FTransformQ where
  rot : Vec3
  loc : Vec3
deriving DecidableEq, Repr

/-- Modelled from the spec: `FMeshPlacementInfo` (RoomGenerationTypes.h is not
in src/); a tile-pool entry carries a mesh reference (which the core only
null-tests), a footprint in cells, allowed rotations, and a placement weight. -/
structure FMeshPlacementInfo where
  gridFootprint : IntPt
  allowedRotations : List Int
  meshNull : Bool
  placementWeight : ℚ
deriving DecidableEq, Repr

namespace Helpers

/-- `URoomGenerationHelpers::CalculateMeshTransform`. -/
def CalculateMeshTransform (gridPosition meshSize : IntPt) (cellSize : ℚ)
    (rotation : Int) (zOffset : ℚ) : FTransformQ :=
  let offsetX := ((meshSize.x : ℚ) * cellSize) * (1 / 2)
  let offsetY := ((meshSize.y : ℚ) * cellSize) * (1 / 2)
  { rot := ⟨0, (rotation : ℚ), 0⟩,
    loc := ⟨(gridPosition.x : ℚ) * cellSize + offsetX,
            (gridPosition.y : ℚ) * cellSize + offsetY, zOffset⟩ }

end Helpers

namespace RoomGen

/-- `URoomGenerator::CalculateFootprint`: the explicit footprint when both
components are positive, otherwise the 1×1 fallback. -/
def CalculateFootprint (meshInfo : FMeshPlacementInfo) : IntPt :=
  if meshInfo.gridFootprint.x > 0 ∧ meshInfo.gridFootprint.y > 0 then meshInfo.gridFootprint
  else ⟨1, 1⟩

/-- `FPlacedMeshInfo`: a committed floor placement record. -/
structure FPlacedMeshInfo where
  gridPosition : IntPt
  gridFootprint : IntPt
  rotation : Int
  meshInfo : FMeshPlacementInfo
  localTransform : FTransformQ
deriving DecidableEq, Repr

/-- `URoomGenerator::TryPlaceMesh`: place through the grid helper (checking
availability against the generator's target type), and on success append the
placement record. -/
def TryPlaceMesh (gridSize : IntPt) (cellSize : ℚ) (target : EGridCellType)
    (gs : List EGridCellType) (placed : List FPlacedMeshInfo)
    (startCoord size : IntPt) (meshInfo : FMeshPlacementInfo) (rotation : Int) :
    Bool × List EGridCellType × List FPlacedMeshInfo :=
  let r := Helpers.TryPlaceMeshInGrid gs gridSize startCoord size target .ECT_FloorMesh
  if ! r.1 then (false, gs, placed)
  else
    (true, r.2, placed ++
      [⟨startCoord, size, rotation, meshInfo,
        Helpers.CalculateMeshTransform startCoord size cellSize rotation 0⟩])

/-- One iteration of the `URoomGenerator::ExecuteForcedPlacements` loop,
processing a single `(coordinate, mesh-info)` entry against the running
`(grid, records, success-count)` state. -/
def processForcedPlacement (gridSize : IntPt) (cellSize : ℚ) (target : EGridCellType)
    (st : List EGridCellType × List FPlacedMeshInfo × Nat)
    (entry : IntPt × FMeshPlacementInfo) :
    List EGridCellType × List FPlacedMeshInfo × Nat :=
  let gs := st.1
  let placed := st.2.1
  let cnt := st.2.2
  let startCoord := entry.1
  let meshInfo := entry.2
  if meshInfo.meshNull then st
  else
    let originalFootprint := CalculateFootprint meshInfo
    let found : Option (Int × IntPt) :=
      if meshInfo.allowedRotations ≠ [] then
        (meshInfo.allowedRotations.find? fun r =>
          let rf := Helpers.GetRotatedFootprint originalFootprint r
          decide (startCoord.x + rf.x ≤ gridSize.x) &&
            decide (startCoord.y + rf.y ≤ gridSize.y) &&
            Helpers.IsAreaAvailable gs gridSize startCoord rf target).map
          fun r => (r, Helpers.GetRotatedFootprint originalFootprint r)
      else some (0, originalFootprint)
    match found with
    | none => (gs, placed, cnt)
    | some best =>
      let bestRotation := best.1
      let bestFootprint := best.2
      if startCoord.x + bestFootprint.x > gridSize.x ∨
          startCoord.y + bestFootprint.y > gridSize.y then (gs, placed, cnt)
      else if ! Helpers.IsAreaAvailable gs gridSize startCoord bestFootprint target then
        (gs, placed, cnt)
      else
        let r := TryPlaceMesh gridSize cellSize target gs placed startCoord bestFootprint
          meshInfo bestRotation
        if r.1 then (r.2.1, r.2.2, cnt + 1) else (gs, placed, cnt)

/-- `URoomGenerator::ExecuteForcedPlacements`: fold the per-entry processing
over the forced-placement entries (the `TMap` modelled as an association
list), starting from the current grid and record list. -/
def ExecuteForcedPlacements (gridSize : IntPt) (cellSize : ℚ) (target : EGridCellType)
    (entries : List (IntPt × FMeshPlacementInfo)) (gs : List EGridCellType)
    (placed : List FPlacedMeshInfo) : List EGridCellType × List FPlacedMeshInfo × Nat :=
  entries.foldl (processForcedPlacement gridSize cellSize target) (gs, placed, 0)

end RoomGen

/-! ### Spec-side description of forced placement (from the claim's words) -/

/-- Spec-side step: try the declared rotations in their declared order (only
0° when none are declared), accept the first whose rotated footprint lies
fully in-bounds and is fully available, place it; otherwise skip the entry,
leaving the state unchanged, and continue. -/
def forcedPlacementSpecStep (gridSize : IntPt) (cellSize : ℚ) (target : EGridCellType)
    (st : List EGridCellType × List RoomGen.FPlacedMeshInfo × Nat)
    (entry : IntPt × FMeshPlacementInfo) :
    List EGridCellType × List RoomGen.FPlacedMeshInfo × Nat :=
  let gs := st.1
  let placed := st.2.1
  let cnt := st.2.2
  let startCoord := entry.1
  let meshInfo := entry.2
  let fp := RoomGen.CalculateFootprint meshInfo
  let rotationsToTry := if meshInfo.allowedRotations ≠ [] then meshInfo.allowedRotations else [0]
  match rotationsToTry.find? (fun r =>
      let rf := Helpers.GetRotatedFootprint fp r
      decide (0 ≤ startCoord.x) && decide (0 ≤ startCoord.y) &&
        decide (startCoord.x + rf.x ≤ gridSize.x) &&
        decide (startCoord.y + rf.y ≤ gridSize.y) &&
        Helpers.IsAreaAvailable gs gridSize startCoord rf target) with
  | none => (gs, placed, cnt)
  | some r =>
    let rf := Helpers.GetRotatedFootprint fp r
    let res := RoomGen.TryPlaceMesh gridSize cellSize target gs placed startCoord rf meshInfo r
    (res.2.1, res.2.2, cnt + 1)

/-- Spec-side fold: every entry is processed in turn; a skipped entry never
aborts the remaining ones. -/
def ExecuteForcedPlacementsSpec (gridSize : IntPt) (cellSize : ℚ) (target : EGridCellType)
    (entries : List (IntPt × FMeshPlacementInfo)) (gs : List EGridCellType)
    (placed : List RoomGen.FPlacedMeshInfo) :
    List EGridCellType × List RoomGen.FPlacedMeshInfo × Nat :=
  entries.foldl (forcedPlacementSpecStep gridSize cellSize target) (gs, placed, 0)

lemma isAreaAvailable_true_start_nonneg {gs : List EGridCellType} {sz startCoord size : IntPt}
    {req : EGridCellType}
    (h : Helpers.IsAreaAvailable gs sz startCoord size req = true) :
    0 ≤ startCoord.x ∧ 0 ≤ startCoord.y := by
  unfold Helpers.IsAreaAvailable at h
  split at h
  · simp at h
  · split at h
    · simp at h
    · rename_i hvalid
      have hvalid' : Helpers.IsValidGridCoordinate startCoord sz = true := by
        revert hvalid
        cases Helpers.IsValidGridCoordinate startCoord sz <;> simp
      simp only [Helpers.IsValidGridCoordinate, Bool.and_eq_true, decide_eq_true_eq] at hvalid'
      exact ⟨hvalid'.1.1.1, hvalid'.1.2⟩

lemma find?_congr_pointwise {p q : α → Bool} :
    ∀ (l : List α), (∀ a ∈ l, p a = q a) → l.find? p = l.find? q
  | [], _ => rfl
  | a :: l, h => by
    rw [List.find?_cons, List.find?_cons, h a (List.mem_cons_self a l)]
    cases q a
    · exact find?_congr_pointwise l fun b hb => h b (List.mem_cons_of_mem a hb)
    · rfl

lemma getRotatedFootprint_zero (fp : IntPt) : Helpers.GetRotatedFootprint fp 0 = fp := by
  simp [Helpers.GetRotatedFootprint, Int.zero_tmod]

lemma find?_singleton (p : α → Bool) (a : α) :
    List.find? p [a] = if p a then some a else none := by
  rw [List.find?_cons]
  cases p a <;> simp

lemma processForcedPlacement_eq_spec (gridSize : IntPt) (cellSize : ℚ)
    (target : EGridCellType) (st : List EGridCellType × List RoomGen.FPlacedMeshInfo × Nat)
    (entry : IntPt × FMeshPlacementInfo) (hnull : entry.2.meshNull = false) :
    RoomGen.processForcedPlacement gridSize cellSize target st entry =
      forcedPlacementSpecStep gridSize cellSize target st entry := by
  obtain ⟨gs, placed, cnt⟩ := st
  obtain ⟨startCoord, meshInfo⟩ := entry
  simp only at hnull
  unfold RoomGen.processForcedPlacement forcedPlacementSpecStep
  dsimp only
  rw [hnull]
  simp only [Bool.false_eq_true, if_false]
  by_cases hrot : meshInfo.allowedRotations ≠ []
  · rw [if_pos hrot, if_pos hrot]
    have hfind : (meshInfo.allowedRotations.find? fun r =>
        let rf := Helpers.GetRotatedFootprint (RoomGen.CalculateFootprint meshInfo) r
        decide (startCoord.x + rf.x ≤ gridSize.x) &&
          decide (startCoord.y + rf.y ≤ gridSize.y) &&
          Helpers.IsAreaAvailable gs gridSize startCoord rf target) =
        (meshInfo.allowedRotations.find? fun r =>
        let rf := Helpers.GetRotatedFootprint (RoomGen.CalculateFootprint meshInfo) r
        decide (0 ≤ startCoord.x) && decide (0 ≤ startCoord.y) &&
          decide (startCoord.x + rf.x ≤ gridSize.x) &&
          decide (startCoord.y + rf.y ≤ gridSize.y) &&
          Helpers.IsAreaAvailable gs gridSize startCoord rf target) := by
      apply find?_congr_pointwise
      intro r _
      dsimp only
      by_cases hav : Helpers.IsAreaAvailable gs gridSize startCoord
          (Helpers.GetRotatedFootprint (RoomGen.CalculateFootprint meshInfo) r) target = true
      · obtain ⟨h0x, h0y⟩ := isAreaAvailable_true_start_nonneg hav
        rw [hav]
        simp [h0x, h0y]
      · rw [Bool.not_eq_true] at hav
        rw [hav]
        simp
    rw [hfind]
    cases hres : (meshInfo.allowedRotations.find? fun r =>
        let rf := Helpers.GetRotatedFootprint (RoomGen.CalculateFootprint meshInfo) r
        decide (0 ≤ startCoord.x) && decide (0 ≤ startCoord.y) &&
          decide (startCoord.x + rf.x ≤ gridSize.x) &&
          decide (startCoord.y + rf.y ≤ gridSize.y) &&
          Helpers.IsAreaAvailable gs gridSize startCoord rf target) with
    | none => simp
    | some r =>
      have hp := List.find?_some hres
      simp only [Bool.and_eq_true, decide_eq_true_eq] at hp
      obtain ⟨⟨⟨⟨h0x, h0y⟩, hbx⟩, hby⟩, hav⟩ := hp
      simp only [Option.map_some']
      have hnb : ¬(startCoord.x +
            (Helpers.GetRotatedFootprint (RoomGen.CalculateFootprint meshInfo) r).x >
            gridSize.x ∨
          startCoord.y +
            (Helpers.GetRotatedFootprint (RoomGen.CalculateFootprint meshInfo) r).y >
            gridSize.y) := by omega
      have hnav : ¬((! Helpers.IsAreaAvailable gs gridSize startCoord
          (Helpers.GetRotatedFootprint (RoomGen.CalculateFootprint meshInfo) r) target)
            = true) := by simp [hav]
      rw [if_neg hnb, if_neg hnav]
      unfold RoomGen.TryPlaceMesh Helpers.TryPlaceMeshInGrid
      rw [if_neg hnav]
      simp [hav]
  · rw [if_neg hrot, if_neg hrot]
    dsimp only
    rw [find?_singleton]
    simp only [getRotatedFootprint_zero]
    by_cases hbx : startCoord.x + (RoomGen.CalculateFootprint meshInfo).x > gridSize.x ∨
        startCoord.y + (RoomGen.CalculateFootprint meshInfo).y > gridSize.y
    · rw [if_pos hbx]
      have hpred : (decide (0 ≤ startCoord.x) && decide (0 ≤ startCoord.y) &&
          decide (startCoord.x + (RoomGen.CalculateFootprint meshInfo).x ≤ gridSize.x) &&
          decide (startCoord.y + (RoomGen.CalculateFootprint meshInfo).y ≤ gridSize.y) &&
          Helpers.IsAreaAvailable gs gridSize startCoord
            (RoomGen.CalculateFootprint meshInfo) target) = false := by
        simp only [Bool.and_eq_false_iff, decide_eq_false_iff_not, not_le]
        rcases hbx with hbx | hbx
        · exact Or.inl (Or.inl (Or.inr hbx))
        · exact Or.inl (Or.inr hbx)
      rw [hpred]
      simp
    · rw [if_neg hbx]
      rw [not_or, not_lt, not_lt] at hbx
      by_cases hav : Helpers.IsAreaAvailable gs gridSize startCoord
          (RoomGen.CalculateFootprint meshInfo) target = true
      · obtain ⟨h0x, h0y⟩ := isAreaAvailable_true_start_nonneg hav
        have hnav : ¬((! Helpers.IsAreaAvailable gs gridSize startCoord
            (RoomGen.CalculateFootprint meshInfo) target) = true) := by simp [hav]
        rw [if_neg hnav]
        have hpred : (decide (0 ≤ startCoord.x) && decide (0 ≤ startCoord.y) &&
            decide (startCoord.x + (RoomGen.CalculateFootprint meshInfo).x ≤ gridSize.x) &&
            decide (startCoord.y + (RoomGen.CalculateFootprint meshInfo).y ≤ gridSize.y) &&
            Helpers.IsAreaAvailable gs gridSize startCoord
              (RoomGen.CalculateFootprint meshInfo) target) = true := by
          simp [h0x, h0y, hbx.1, hbx.2, hav]
        rw [hpred]
        unfold RoomGen.TryPlaceMesh Helpers.TryPlaceMeshInGrid
        rw [if_neg hnav]
        simp [hav, getRotatedFootprint_zero]
      · rw [Bool.not_eq_true] at hav
        have hpav : ((! Helpers.IsAreaAvailable gs gridSize startCoord
            (RoomGen.CalculateFootprint meshInfo) target) = true) := by simp [hav]
        rw [if_pos hpav]
        have hpred : (decide (0 ≤ startCoord.x) && decide (0 ≤ startCoord.y) &&
            decide (startCoord.x + (RoomGen.CalculateFootprint meshInfo).x ≤ gridSize.x) &&
            decide (startCoord.y + (RoomGen.CalculateFootprint meshInfo).y ≤ gridSize.y) &&
            Helpers.IsAreaAvailable gs gridSize startCoord
              (RoomGen.CalculateFootprint meshInfo) target) = false := by
          simp [hav]
        rw [hpred]
        simp

/-- C7: forced floor placement processing equals its specification: per entry,
the declared rotations are tried in declared order and the first whose rotated
footprint is fully in-bounds and fully available is accepted and placed; an
entry with no fitting rotation is skipped with the state unchanged and the
remaining entries are still processed; an entry with no declared rotations
tries only 0°. -/
theorem C7_forced_placements_first_fit_rotation (gridSize : IntPt) (cellSize : ℚ)
    (target : EGridCellType) (entries : List (IntPt × FMeshPlacementInfo))
    (gs : List EGridCellType) (placed : List RoomGen.FPlacedMeshInfo)
    (hnull : ∀ e ∈ entries, e.2.meshNull = false) :
    RoomGen.ExecuteForcedPlacements gridSize cellSize target entries gs placed =
      ExecuteForcedPlacementsSpec gridSize cellSize target entries gs placed := by
  unfold RoomGen.ExecuteForcedPlacements ExecuteForcedPlacementsSpec
  generalize hst : (gs, placed, (0 : Nat)) = st
  clear hst
  induction entries generalizing st with
  | nil => rfl
  | cons e es ih =>
    rw [List.foldl_cons, List.foldl_cons,
      processForcedPlacement_eq_spec gridSize cellSize target st e
        (hnull e (List.mem_cons_self e es))]
    exact ih (fun e' he' => hnull e' (List.mem_cons_of_mem e he')) _

/-- Witness for C7: one forced 2×1 entry with rotations [90°, 0°] at (0,0) on
an all-Empty 2×2 grid: 90° (footprint 1×2) fits and is chosen first. -/
theorem C7_witness :
    RoomGen.ExecuteForcedPlacements ⟨2, 2⟩ 100 .ECT_Empty
        [(⟨0, 0⟩, ⟨⟨2, 1⟩, [90, 0], false, 1⟩)]
        (List.replicate 4 .ECT_Empty) [] =
      ExecuteForcedPlacementsSpec ⟨2, 2⟩ 100 .ECT_Empty
        [(⟨0, 0⟩, ⟨⟨2, 1⟩, [90, 0], false, 1⟩)]
        (List.replicate 4 .ECT_Empty) [] ∧
    (RoomGen.ExecuteForcedPlacements ⟨2, 2⟩ 100 .ECT_Empty
        [(⟨0, 0⟩, ⟨⟨2, 1⟩, [90, 0], false, 1⟩)]
        (List.replicate 4 .ECT_Empty) []).2.2 = 1 :=
  ⟨C7_forced_placements_first_fit_rotation ⟨2, 2⟩ 100 .ECT_Empty
      [(⟨0, 0⟩, ⟨⟨2, 1⟩, [90, 0], false, 1⟩)] (List.replicate 4 .ECT_Empty) []
      (by decide),
    by decide⟩

/-! ## Chunky rooms: interior corners and perimeter wall cells
(ChunkyRoomGenerator.cpp) -/

/-- `ECornerPosition` (the values the corner code uses). -/
inductive ECornerPosition where
  | None
  | SouthWest
  | SouthEast
  | NorthEast
  | NorthWest
deriving DecidableEq, Repr

/-- `FPlacedCornerInfo`: corner id and the transform's location part (the
rotation is always the zero rotator for interior corners). -/
structure FPlacedCornerInfo where
  corner : ECornerPosition
  position : Vec3
deriving DecidableEq, Repr

namespace Chunky

/-- `UChunkyRoomGenerator::GetDirectionOffset` (+X = North, −X = South,
+Y = East, −Y = West). -/
def GetDirectionOffset : EWallEdge → IntPt
  | .North => ⟨1, 0⟩
  | .South => ⟨-1, 0⟩
  | .East => ⟨0, 1⟩
  | .West => ⟨0, -1⟩

/-- The neighbor test inside `IsVoidCornerCell`'s direction loop: the neighbor
in direction `e` is a valid coordinate whose state is `ECT_Custom`. -/
def hasCustomNeighbor (gs : List EGridCellType) (sz cell : IntPt) (e : EWallEdge) : Bool :=
  let neighbor := cell.add (GetDirectionOffset e)
  RoomGen.IsValidGridCoordinate sz neighbor &&
    (RoomGen.GetCellState gs sz neighbor == .ECT_Custom)

/-- The `OutAdjacentFloorEdges` list collected by
`UChunkyRoomGenerator::IsVoidCornerCell` (directions checked in the order
North, South, East, West). -/
def IsVoidCornerCellEdges (gs : List EGridCellType) (sz cell : IntPt) : List EWallEdge :=
  ([EWallEdge.North, .South, .East, .West]).filter (hasCustomNeighbor gs sz cell)

/-- The opposite-pair rejection test of `IsVoidCornerCell`. -/
def isOppositePair (e1 e2 : EWallEdge) : Bool :=
  (e1 == .North && e2 == .South) || (e1 == .South && e2 == .North) ||
  (e1 == .East && e2 == .West) || (e1 == .West && e2 == .East)

/-- `UChunkyRoomGenerator::IsVoidCornerCell`: the cell must be void, have
exactly two Custom orthogonal neighbors, and those two sides must not be an
opposite pair. -/
def IsVoidCornerCell (gs : List EGridCellType) (sz cell : IntPt) : Bool :=
  if RoomGen.GetCellState gs sz cell ≠ .ECT_Void then false
  else
    let edges := IsVoidCornerCellEdges gs sz cell
    if edges.length ≠ 2 then false
    else
      match edges with
      | [e1, e2] => if isOppositePair e1 e2 then false else true
      | _ => false

/-- `UChunkyRoomGenerator::GenerateInteriorCorners`: scan every cell in
row-major order; each void cell detected as an interior corner produces a
corner record (corner id `None`, zero rotation) at the void cell's center and
is added to `CornerOccupiedCells`.  Returns `(PlacedCornerMeshes,
CornerOccupiedCells)`; when no valid corner mesh is configured the function
does nothing. -/
def GenerateInteriorCorners (gs : List EGridCellType) (sz : IntPt) (cellSize : ℚ)
    (cornerMeshValid : Bool) : List FPlacedCornerInfo × List IntPt :=
  if ! cornerMeshValid then ([], [])
  else
    let detected := (List.range sz.y.toNat).flatMap fun (y : Nat) =>
      (List.range sz.x.toNat).filterMap fun (x : Nat) =>
        let cell : IntPt := ⟨(x : Int), (y : Int)⟩
        if IsVoidCornerCell gs sz cell then some cell else none
    (detected.map fun cell =>
      ⟨ECornerPosition.None,
        ⟨(cell.x : ℚ) * cellSize + cellSize * (1 / 2),
         (cell.y : ℚ) * cellSize + cellSize * (1 / 2), 0⟩⟩,
      detected)

/-- `UChunkyRoomGenerator::GetPerimeterCellsForEdge`: every Custom cell whose
neighbor in the edge direction is out of the grid, or is a void cell not
already claimed by an interior corner; sorted along the edge direction. -/
def GetPerimeterCellsForEdge (gs : List EGridCellType) (sz : IntPt)
    (cornerOccupiedCells : List IntPt) (edge : EWallEdge) : List IntPt :=
  let edgeDirection := GetDirectionOffset edge
  let cells := (List.range sz.y.toNat).flatMap fun (y : Nat) =>
    (List.range sz.x.toNat).filterMap fun (x : Nat) =>
      let floorCell : IntPt := ⟨(x : Int), (y : Int)⟩
      if RoomGen.GetCellState gs sz floorCell ≠ .ECT_Custom then none
      else
        let neighbor := floorCell.add edgeDirection
        if ! RoomGen.IsValidGridCoordinate sz neighbor then some floorCell
        else if RoomGen.GetCellState gs sz neighbor == .ECT_Void then
          if neighbor ∈ cornerOccupiedCells then none
          else some floorCell
        else none
  if edge = .North ∨ edge = .South then
    cells.mergeSort fun a b => a.y < b.y
  else
    cells.mergeSort fun a b => a.x < b.x

end Chunky

/-- Spec-side notion of the opposite wall edge. -/
def oppositeEdge : EWallEdge → EWallEdge
  | .North => .South
  | .South => .North
  | .East => .West
  | .West => .East

lemma isOppositePair_false_iff (e1 e2 : EWallEdge) :
    Chunky.isOppositePair e1 e2 = false ↔ e2 ≠ oppositeEdge e1 := by
  cases e1 <;> cases e2 <;> decide

lemma oppositeEdge_comm {e1 e2 : EWallEdge} (h : e2 ≠ oppositeEdge e1) :
    e1 ≠ oppositeEdge e2 := by
  revert h
  cases e1 <;> cases e2 <;> decide

lemma mem_voidCornerCellEdges (gs : List EGridCellType) (sz cell : IntPt) (e : EWallEdge) :
    e ∈ Chunky.IsVoidCornerCellEdges gs sz cell ↔
      Chunky.hasCustomNeighbor gs sz cell e = true := by
  unfold Chunky.IsVoidCornerCellEdges
  rw [List.mem_filter]
  have : e ∈ [EWallEdge.North, .South, .East, .West] := by cases e <;> simp
  simp [this]

lemma voidCornerCellEdges_nodup (gs : List EGridCellType) (sz cell : IntPt) :
    (Chunky.IsVoidCornerCellEdges gs sz cell).Nodup :=
  List.Nodup.filter _ (by decide)

lemma isVoidCornerCell_iff (gs : List EGridCellType) (sz cell : IntPt) :
    Chunky.IsVoidCornerCell gs sz cell = true ↔
      RoomGen.GetCellState gs sz cell = .ECT_Void ∧
      ∃ e1 e2 : EWallEdge, e1 ≠ e2 ∧ e2 ≠ oppositeEdge e1 ∧
        Chunky.hasCustomNeighbor gs sz cell e1 = true ∧
        Chunky.hasCustomNeighbor gs sz cell e2 = true ∧
        ∀ e, Chunky.hasCustomNeighbor gs sz cell e = true → e = e1 ∨ e = e2 := by
  unfold Chunky.IsVoidCornerCell
  constructor
  · intro h
    split at h
    · simp at h
    · rename_i hv
      rw [not_not] at hv
      refine ⟨hv, ?_⟩
      dsimp only at h
      split at h
      · simp at h
      · rename_i hlen
        rw [not_not] at hlen
        obtain ⟨a, b, hab⟩ := List.length_eq_two.mp hlen
        rw [hab] at h
        dsimp only at h
        have hnd := voidCornerCellEdges_nodup gs sz cell
        rw [hab] at hnd
        have hneab : a ≠ b := by
          simp only [List.nodup_cons, List.mem_singleton, List.nodup_nil, and_true] at hnd
          exact hnd.1
        have hopp : Chunky.isOppositePair a b = false := by
          by_contra hc
          rw [Bool.not_eq_false] at hc
          rw [hc] at h
          simp at h
        refine ⟨a, b, hneab, (isOppositePair_false_iff a b).mp hopp, ?_, ?_, ?_⟩
        · exact (mem_voidCornerCellEdges gs sz cell a).mp (hab ▸ List.mem_cons_self a [b])
        · exact (mem_voidCornerCellEdges gs sz cell b).mp
            (hab ▸ List.mem_cons_of_mem a (List.mem_cons_self b []))
        · intro e he
          have := (mem_voidCornerCellEdges gs sz cell e).mpr he
          rw [hab] at this
          simpa using this
  · rintro ⟨hv, e1, e2, hne, hnopp, h1, h2, hall⟩
    rw [if_neg (by simp [hv])]
    have hmem : ∀ e, e ∈ Chunky.IsVoidCornerCellEdges gs sz cell ↔ (e = e1 ∨ e = e2) := by
      intro e
      rw [mem_voidCornerCellEdges]
      constructor
      · exact hall e
      · rintro (rfl | rfl)
        · exact h1
        · exact h2
    have hnd := voidCornerCellEdges_nodup gs sz cell
    have htofin : (Chunky.IsVoidCornerCellEdges gs sz cell).toFinset = {e1, e2} := by
      ext e
      rw [List.mem_toFinset, hmem]
      simp
    have hlen : (Chunky.IsVoidCornerCellEdges gs sz cell).length = 2 := by
      rw [← List.toFinset_card_of_nodup hnd, htofin, Finset.card_pair hne]
    rw [if_neg (by simp [hlen])]
    obtain ⟨a, b, hab⟩ := List.length_eq_two.mp hlen
    have hnd' := hnd
    rw [hab] at hnd'
    have hab_ne : a ≠ b := by
      simp only [List.nodup_cons, List.mem_singleton, List.nodup_nil, and_true] at hnd'
      exact hnd'.1
    have ha : a = e1 ∨ a = e2 := (hmem a).mp (hab ▸ List.mem_cons_self a [b])
    have hb : b = e1 ∨ b = e2 := (hmem b).mp
      (hab ▸ List.mem_cons_of_mem a (List.mem_cons_self b []))
    rw [hab]
    dsimp only
    rcases ha with ha | ha <;> rcases hb with hb | hb
    · exact absurd (ha.trans hb.symm) hab_ne
    · rw [ha, hb, (isOppositePair_false_iff e1 e2).mpr hnopp]
      rfl
    · rw [ha, hb, (isOppositePair_false_iff e2 e1).mpr (oppositeEdge_comm hnopp)]
      rfl
    · exact absurd (ha.trans hb.symm) hab_ne

lemma mem_perimeterCells (gs : List EGridCellType) (sz : IntPt)
    (claimed : List IntPt) (edge : EWallEdge) (cell : IntPt) :
    cell ∈ Chunky.GetPerimeterCellsForEdge gs sz claimed edge ↔
      RoomGen.GetCellState gs sz cell = .ECT_Custom ∧
      (¬ RoomGen.IsValidGridCoordinate sz (cell.add (Chunky.GetDirectionOffset edge)) = true ∨
        (RoomGen.GetCellState gs sz (cell.add (Chunky.GetDirectionOffset edge)) = .ECT_Void ∧
          cell.add (Chunky.GetDirectionOffset edge) ∉ claimed)) := by
  unfold Chunky.GetPerimeterCellsForEdge
  have hmem : cell ∈ ((List.range sz.y.toNat).flatMap fun (y : Nat) =>
      (List.range sz.x.toNat).filterMap fun (x : Nat) =>
        let floorCell : IntPt := ⟨(x : Int), (y : Int)⟩
        if RoomGen.GetCellState gs sz floorCell ≠ .ECT_Custom then none
        else
          let neighbor := floorCell.add (Chunky.GetDirectionOffset edge)
          if ! RoomGen.IsValidGridCoordinate sz neighbor then some floorCell
          else if RoomGen.GetCellState gs sz neighbor == .ECT_Void then
            if neighbor ∈ claimed then none
            else some floorCell
          else none) ↔
      RoomGen.GetCellState gs sz cell = .ECT_Custom ∧
      (¬ RoomGen.IsValidGridCoordinate sz (cell.add (Chunky.GetDirectionOffset edge)) = true ∨
        (RoomGen.GetCellState gs sz (cell.add (Chunky.GetDirectionOffset edge)) = .ECT_Void ∧
          cell.add (Chunky.GetDirectionOffset edge) ∉ claimed)) := by
    simp only [List.mem_flatMap, List.mem_filterMap, List.mem_range]
    constructor
    · rintro ⟨y, hy, x, hx, hsome⟩
      split at hsome
      · simp at hsome
      · rename_i hcustom
        rw [not_not] at hcustom
        split at hsome
        · rename_i hval
          obtain rfl := Option.some.injEq .. ▸ hsome
          exact ⟨hcustom, Or.inl (by simpa using hval)⟩
        · rename_i hval
          split at hsome
          · rename_i hvoid
            split at hsome
            · simp at hsome
            · rename_i hclaim
              obtain rfl := Option.some.injEq .. ▸ hsome
              exact ⟨hcustom, Or.inr ⟨by simpa using hvoid, hclaim⟩⟩
          · simp at hsome
    · rintro ⟨hcustom, hcond⟩
      have hvalidcell : RoomGen.IsValidGridCoordinate sz cell = true := by
        by_contra hc
        unfold RoomGen.GetCellState at hcustom
        rw [if_pos (by simpa using hc)] at hcustom
        exact absurd hcustom (by simp)
      simp only [RoomGen.IsValidGridCoordinate, Bool.and_eq_true, decide_eq_true_eq]
        at hvalidcell
      obtain ⟨⟨⟨hx0, hx1⟩, hy0⟩, hy1⟩ := hvalidcell
      refine ⟨cell.y.toNat, by omega, cell.x.toNat, by omega, ?_⟩
      have hcell : (⟨(cell.x.toNat : Int), (cell.y.toNat : Int)⟩ : IntPt) = cell := by
        cases cell with
        | mk cx cy =>
          simp only [IntPt.mk_x, IntPt.mk_y] at hx0 hy0 ⊢
          simp only [IntPt.mk.injEq]
          constructor <;> omega
      rw [hcell, if_neg (by simp [hcustom])]
      rcases hcond with hval | ⟨hvoid, hclaim⟩
      · rw [if_pos (by simpa using hval)]
      · by_cases hval : RoomGen.IsValidGridCoordinate sz
            (cell.add (Chunky.GetDirectionOffset edge)) = true
        · rw [if_neg (by simp [hval])]
          rw [if_pos (by simp [hvoid])]
          rw [if_neg hclaim]
        · rw [if_pos (by simpa using hval)]
  constructor
  · intro h
    split at h <;> exact hmem.mp (List.mem_mergeSort.mp h)
  · intro h
    split <;> exact List.mem_mergeSort.mpr (hmem.mpr h)

/-- C8: in a chunky room a void cell is detected as an interior corner iff it
has exactly two Custom orthogonal neighbors on adjacent (not opposite) sides;
every detected corner produces a record at the void cell's center and the
cell is claimed; and a Custom cell is a wall-fillable perimeter cell of an
edge iff its neighbor in the edge direction is out-of-bounds or an unclaimed
void cell — so claimed void cells are excluded from wall packing. -/
theorem C8_interior_corners_and_perimeter (gs : List EGridCellType) (sz : IntPt)
    (cellSize : ℚ) (claimed : List IntPt) :
    (∀ cell, Chunky.IsVoidCornerCell gs sz cell = true ↔
      RoomGen.GetCellState gs sz cell = .ECT_Void ∧
      ∃ e1 e2 : EWallEdge, e1 ≠ e2 ∧ e2 ≠ oppositeEdge e1 ∧
        Chunky.hasCustomNeighbor gs sz cell e1 = true ∧
        Chunky.hasCustomNeighbor gs sz cell e2 = true ∧
        ∀ e, Chunky.hasCustomNeighbor gs sz cell e = true → e = e1 ∨ e = e2) ∧
    ((Chunky.GenerateInteriorCorners gs sz cellSize true).1 =
      (Chunky.GenerateInteriorCorners gs sz cellSize true).2.map (fun cell =>
        ⟨ECornerPosition.None,
          ⟨(cell.x : ℚ) * cellSize + cellSize * (1 / 2),
           (cell.y : ℚ) * cellSize + cellSize * (1 / 2), 0⟩⟩)) ∧
    (∀ cell, cell ∈ (Chunky.GenerateInteriorCorners gs sz cellSize true).2 ↔
      InBounds cell sz ∧ Chunky.IsVoidCornerCell gs sz cell = true) ∧
    (∀ edge cell, cell ∈ Chunky.GetPerimeterCellsForEdge gs sz claimed edge ↔
      RoomGen.GetCellState gs sz cell = .ECT_Custom ∧
      (¬ RoomGen.IsValidGridCoordinate sz
          (cell.add (Chunky.GetDirectionOffset edge)) = true ∨
        (RoomGen.GetCellState gs sz (cell.add (Chunky.GetDirectionOffset edge)) =
            .ECT_Void ∧
          cell.add (Chunky.GetDirectionOffset edge) ∉ claimed))) := by
  refine ⟨isVoidCornerCell_iff gs sz, rfl, ?_, fun edge cell => mem_perimeterCells gs sz claimed edge cell⟩
  intro cell
  unfold Chunky.GenerateInteriorCorners
  simp only [Bool.not_true, Bool.false_eq_true, if_false,
    List.mem_flatMap, List.mem_filterMap, List.mem_range]
  constructor
  · rintro ⟨y, hy, x, hx, hsome⟩
    split at hsome
    · rename_i hcorner
      obtain rfl := Option.some.injEq .. ▸ hsome
      refine ⟨⟨?_, ?_, ?_, ?_⟩, hcorner⟩ <;> simp only [IntPt.mk_x, IntPt.mk_y] <;> omega
    · simp at hsome
  · rintro ⟨⟨hx0, hx1, hy0, hy1⟩, hcorner⟩
    refine ⟨cell.y.toNat, by omega, cell.x.toNat, by omega, ?_⟩
    have hcell : (⟨(cell.x.toNat : Int), (cell.y.toNat : Int)⟩ : IntPt) = cell := by
      cases cell with
      | mk cx cy =>
        simp only [IntPt.mk_x, IntPt.mk_y] at hx0 hy0 ⊢
        simp only [IntPt.mk.injEq]
        constructor <;> omega
    rw [hcell, if_pos hcorner]

/-! ## Doorway planner, cached-layout path (RoomGenerator.cpp 902-1200) -/

/-- `FRotator`/`FVector` addition used by the doorway code. -/
def rotAdd (a b : Vec3) : Vec3 := ⟨a.x + b.x, a.y + b.y, a.z + b.z⟩

namespace Helpers

/-- `URoomGenerationHelpers::GetWallRotationForEdge` (rotators as
(pitch, yaw, roll)). -/
def GetWallRotationForEdge : EWallEdge → Vec3
  | .North => ⟨0, 180, 0⟩
  | .South => ⟨0, 0, 0⟩
  | .East => ⟨0, 270, 0⟩
  | .West => ⟨0, 90, 0⟩

/-- `URoomGenerationHelpers::CalculateDoorwayPosition`. -/
def CalculateDoorwayPosition (edge : EWallEdge) (startCell widthInCells : Int)
    (gridSize : IntPt) (cellSize : ℚ) : Vec3 :=
  let doorwayCenter := ((startCell : ℚ) + (widthInCells : ℚ) / 2) * cellSize
  match edge with
  | .North => ⟨(gridSize.x : ℚ) * cellSize, doorwayCenter, 0⟩
  | .South => ⟨0, doorwayCenter, 0⟩
  | .East => ⟨doorwayCenter, (gridSize.y : ℚ) * cellSize, 0⟩
  | .West => ⟨doorwayCenter, 0, 0⟩

end Helpers

/-- `FDoorPositionOffsets`: the designer-tunable frame/actor position offsets. -/
structure FDoorPositionOffsets where
  framePositionOffset : Vec3
  actorPositionOffset : Vec3
deriving DecidableEq, Repr

/-- Modelled from the spec: `UDoorData` (DoorData.h is not in src/); a door
style carries per-edge position offsets (`GetOffsetsForEdge`) and a frame
rotation offset.  Layouts reference the style object by id, so the *current*
state of the style asset at call time is modelled as a function from ids. -/
structure DoorDataQ where
  offsetsForEdge : EWallEdge → FDoorPositionOffsets
  frameRotationOffset : Vec3

/-- `FDoorwayLayoutInfo`: the durable, cacheable doorway decision. -/
structure FDoorwayLayoutInfo where
  edge : EWallEdge
  startCell : Int
  widthInCells : Int
  doorDataId : Nat
  bIsStandardDoorway : Bool
  manualOffsets : FDoorPositionOffsets

/-- `FPlacedDoorwayInfo`: the derived, offset-dependent placement. -/
structure FPlacedDoorwayInfo where
  edge : EWallEdge
  startCell : Int
  widthInCells : Int
  doorDataId : Nat
  bIsStandardDoorway : Bool
  frameRot : Vec3
  framePos : Vec3
  actorPos : Vec3

namespace RoomGen

/-- `URoomGenerator::CalculateDoorwayTransforms`: copy the layout fields, then
derive the frame/actor transforms from the base doorway position plus the
current style offsets (standard doorways) or the stored manual offsets. -/
def CalculateDoorwayTransforms (styles : Nat → DoorDataQ) (gridSize : IntPt)
    (cellSize : ℚ) (layout : FDoorwayLayoutInfo) : FPlacedDoorwayInfo :=
  let basePosition := Helpers.CalculateDoorwayPosition layout.edge layout.startCell
    layout.widthInCells gridSize cellSize
  let offsets := if layout.bIsStandardDoorway then
      (styles layout.doorDataId).offsetsForEdge layout.edge
    else layout.manualOffsets
  let finalFramePosition := basePosition.add offsets.framePositionOffset
  let finalActorPosition := basePosition.add offsets.actorPositionOffset
  let rotation := rotAdd (Helpers.GetWallRotationForEdge layout.edge)
    (styles layout.doorDataId).frameRotationOffset
  ⟨layout.edge, layout.startCell, layout.widthInCells, layout.doorDataId,
    layout.bIsStandardDoorway, rotation, finalFramePosition, finalActorPosition⟩

/-- `URoomGenerator::MarkDoorwayCells`: for every placed doorway, walk its
edge-cell span and set the grid state of every span cell that lies inside the
interior grid to `ECT_Doorway`. -/
def MarkDoorwayCells (gridSize : IntPt) (placed : List FPlacedDoorwayInfo)
    (gs : List EGridCellType) : List EGridCellType :=
  placed.foldl
    (fun gs1 dw =>
      let edgeCells := Helpers.GetEdgeCellIndices dw.edge gridSize
      (List.range dw.widthInCells.toNat).foldl
        (fun gs2 (i : Nat) =>
          let cellIndex := dw.startCell + (i : Int)
          match listGet edgeCells cellIndex with
          | none => gs2
          | some cell =>
            if cell.x ≥ 0 ∧ cell.x < gridSize.x ∧ cell.y ≥ 0 ∧ cell.y < gridSize.y then
              listSet gs2 (cell.y * gridSize.x + cell.x) .ECT_Doorway
            else gs2)
        gs1)
    gs

/-- The cache-hit path of `URoomGenerator::GenerateDoorways` (lines 911-930):
with cached layouts present, no layout is recomputed; the transforms are
re-derived from each cached layout with the current style offsets and the
doorway cells are re-marked.  Returns the new `PlacedDoorwayMeshes` and the
updated grid; `CachedDoorwayLayouts` is not touched. -/
def GenerateDoorwaysFromCache (styles : Nat → DoorDataQ) (gridSize : IntPt)
    (cellSize : ℚ) (cachedLayouts : List FDoorwayLayoutInfo)
    (gs : List EGridCellType) : List FPlacedDoorwayInfo × List EGridCellType :=
  let placed := cachedLayouts.map (CalculateDoorwayTransforms styles gridSize cellSize)
  (placed, MarkDoorwayCells gridSize placed gs)

end RoomGen

lemma markDoorwayCells_styles_irrelevant (styles1 styles2 : Nat → DoorDataQ)
    (gridSize : IntPt) (cellSize : ℚ) (layouts : List FDoorwayLayoutInfo)
    (gs : List EGridCellType) :
    RoomGen.MarkDoorwayCells gridSize
        (layouts.map (RoomGen.CalculateDoorwayTransforms styles1 gridSize cellSize)) gs =
      RoomGen.MarkDoorwayCells gridSize
        (layouts.map (RoomGen.CalculateDoorwayTransforms styles2 gridSize cellSize)) gs := by
  unfold RoomGen.MarkDoorwayCells
  induction layouts generalizing gs with
  | nil => rfl
  | cons L ls ih =>
    simp only [List.map_cons, List.foldl_cons]
    exact ih _

/-- C5: re-running `GenerateDoorways` on an existing cache with different
style offsets marks exactly the same set of grid cells as doorway cells (the
marking depends only on the cached layouts), preserves the cached layouts'
edge/start/width data in the placements, and derives each standard doorway's
frame/actor transform from the layout's base position plus the *current*
style's offsets for its edge. -/
theorem C5_doorway_cache_stability (styles1 styles2 : Nat → DoorDataQ)
    (gridSize : IntPt) (cellSize : ℚ) (layouts : List FDoorwayLayoutInfo)
    (gs : List EGridCellType) :
    (RoomGen.GenerateDoorwaysFromCache styles1 gridSize cellSize layouts gs).2 =
      (RoomGen.GenerateDoorwaysFromCache styles2 gridSize cellSize layouts gs).2 ∧
    ((RoomGen.GenerateDoorwaysFromCache styles1 gridSize cellSize layouts gs).1.map
        (fun p => (p.edge, p.startCell, p.widthInCells)) =
      layouts.map (fun L => (L.edge, L.startCell, L.widthInCells))) ∧
    ((RoomGen.GenerateDoorwaysFromCache styles2 gridSize cellSize layouts gs).1.map
        (fun p => (p.edge, p.startCell, p.widthInCells)) =
      layouts.map (fun L => (L.edge, L.startCell, L.widthInCells))) ∧
    (∀ (i : Nat) (L : FDoorwayLayoutInfo), layouts[i]? = some L → L.bIsStandardDoorway = true →
      ∃ p, (RoomGen.GenerateDoorwaysFromCache styles2 gridSize cellSize layouts gs).1[i]? =
          some p ∧
        p.framePos = (Helpers.CalculateDoorwayPosition L.edge L.startCell L.widthInCells
            gridSize cellSize).add
          ((styles2 L.doorDataId).offsetsForEdge L.edge).framePositionOffset ∧
        p.actorPos = (Helpers.CalculateDoorwayPosition L.edge L.startCell L.widthInCells
            gridSize cellSize).add
          ((styles2 L.doorDataId).offsetsForEdge L.edge).actorPositionOffset) := by
  refine ⟨markDoorwayCells_styles_irrelevant styles1 styles2 gridSize cellSize layouts gs,
    ?_, ?_, ?_⟩
  · show ((layouts.map (RoomGen.CalculateDoorwayTransforms styles1 gridSize cellSize)).map
        (fun p => (p.edge, p.startCell, p.widthInCells))) = _
    rw [List.map_map]
    rfl
  · show ((layouts.map (RoomGen.CalculateDoorwayTransforms styles2 gridSize cellSize)).map
        (fun p => (p.edge, p.startCell, p.widthInCells))) = _
    rw [List.map_map]
    rfl
  · intro i L hL hstd
    refine ⟨RoomGen.CalculateDoorwayTransforms styles2 gridSize cellSize L, ?_, ?_, ?_⟩
    · show (layouts.map (RoomGen.CalculateDoorwayTransforms styles2 gridSize cellSize))[i]? =
        _
      rw [List.getElem?_map, hL]
      rfl
    · show (RoomGen.CalculateDoorwayTransforms styles2 gridSize cellSize L).framePos = _
      unfold RoomGen.CalculateDoorwayTransforms
      rw [if_pos hstd]
    · show (RoomGen.CalculateDoorwayTransforms styles2 gridSize cellSize L).actorPos = _
      unfold RoomGen.CalculateDoorwayTransforms
      rw [if_pos hstd]

/-! ## Wall vertical layer stacking (RoomGenerator.cpp 682-796,
RoomGenerationHelpers.cpp 273-316)

Transforms are kept abstract: the development is parametric in the transform
type `T`, the engine's `FTransform` composition `comp` (`A * B`), and the
constructor `mkT rot loc` (`FTransform(Rotation, Location)`); a loaded
`UStaticMesh` is modelled by its socket table. -/

/-- A loaded static mesh, modelled by its sockets: name ↦ (relative rotation,
relative location). -/
structure MeshQ where
  sockets : List (String × (Vec3 × Vec3))
deriving DecidableEq, Repr

/-- Modelled from the spec: `FWallModule` (WallData.h is not in src/); a wall
module has a footprint along the edge, base/middle1/middle2/top mesh
references (absent mesh = layer not stacked; `LoadSynchronous` returning null
is modelled by `Option`), and a placement weight. -/
structure FWallModuleQ where
  yAxisFootprint : Int
  baseMesh : Option MeshQ
  middleMesh1 : Option MeshQ
  middleMesh2 : Option MeshQ
  topMesh : Option MeshQ
  placementWeight : ℚ
deriving DecidableEq, Repr

/-- `FGeneratorWallSegment`: a tracked base wall segment. -/
structure FGeneratorWallSegment (T : Type) where
  edge : EWallEdge
  startCell : Int
  segmentLength : Int
  baseTransform : T
  baseMesh : Option MeshQ
  wallModule : Option FWallModuleQ
deriving DecidableEq

/-- `FPlacedWallInfo`: a wall record with its stacked layer transforms
(`none` = layer not produced). -/
structure FPlacedWallInfo (T : Type) where
  edge : EWallEdge
  startCell : Int
  spanLength : Int
  wallModule : FWallModuleQ
  bottomTransform : T
  middle1Transform : T
  middle2Transform : Option T
  topTransform : Option T
deriving DecidableEq

namespace Helpers

/-- `URoomGenerationHelpers::GetMeshSocketTransform`: null mesh or missing
socket yields no transform. -/
def GetMeshSocketTransform (mesh : Option MeshQ) (socketName : String) :
    Option (Vec3 × Vec3) :=
  match mesh with
  | none => none
  | some m => m.sockets.lookup socketName

/-- `URoomGenerationHelpers::CalculateSocketWorldTransform`: the socket
transform (or, when the socket is undefined, a zero-rotation transform at the
fallback offset) composed with the parent transform. -/
def CalculateSocketWorldTransform {T : Type} (comp : T → T → T)
    (mkT : Vec3 → Vec3 → T) (mesh : Option MeshQ) (socketName : String)
    (parentTransform : T) (fallbackOffset : Vec3) : T :=
  match GetMeshSocketTransform mesh socketName with
  | some (srot, sloc) => comp (mkT srot sloc) parentTransform
  | none => comp (mkT ⟨0, 0, 0⟩ fallbackOffset) parentTransform

end Helpers

namespace RoomGen

/-- `URoomGenerator::SpawnMiddleWallLayers`: each tracked segment whose module
defines a middle-1 mesh produces a wall record whose middle-1 transform chains
to the `TopBackCenter` socket of the base mesh (fallback `(0,0,WallHeight)`);
if the module also defines a middle-2 mesh, the record's middle-2 transform
chains to the middle-1 mesh's socket on top of the middle-1 transform. -/
def SpawnMiddleWallLayers {T : Type} (comp : T → T → T) (mkT : Vec3 → Vec3 → T)
    (fallbackHeight : ℚ) (segments : List (FGeneratorWallSegment T)) :
    List (FPlacedWallInfo T) :=
  segments.filterMap fun seg =>
    match seg.wallModule with
    | none => none
    | some M =>
      match M.middleMesh1 with
      | none => none
      | some m1 =>
        let middle1World := Helpers.CalculateSocketWorldTransform comp mkT seg.baseMesh
          "TopBackCenter" seg.baseTransform ⟨0, 0, fallbackHeight⟩
        let wall : FPlacedWallInfo T :=
          ⟨seg.edge, seg.startCell, seg.segmentLength, M, seg.baseTransform,
            middle1World, none, none⟩
        match M.middleMesh2 with
        | none => some wall
        | some _ =>
          let middle2World := Helpers.CalculateSocketWorldTransform comp mkT (some m1)
            "TopBackCenter" middle1World ⟨0, 0, fallbackHeight⟩
          some { wall with middle2Transform := some middle2World }

/-- `URoomGenerator::SpawnTopWallLayer`: each wall record whose module defines
a top mesh gets a top transform chained to the `TopBackCenter` socket of the
layer it rests on — middle-2 if that mesh exists, else middle-1, else the
base (`idT` is the default `FTransform` read when a transform field was never
set). -/
def SpawnTopWallLayer {T : Type} (comp : T → T → T) (mkT : Vec3 → Vec3 → T)
    (idT : T) (fallbackHeight : ℚ) (walls : List (FPlacedWallInfo T)) :
    List (FPlacedWallInfo T) :=
  walls.map fun wall =>
    match wall.wallModule.topMesh with
    | none => wall
    | some _ =>
      let snapAndBase : Option MeshQ × T :=
        match wall.wallModule.middleMesh2 with
        | some m2 => (some m2, wall.middle2Transform.getD idT)
        | none =>
          match wall.wallModule.middleMesh1 with
          | some m1 => (some m1, wall.middle1Transform)
          | none => (wall.wallModule.baseMesh, wall.bottomTransform)
      let topWorld := Helpers.CalculateSocketWorldTransform comp mkT snapAndBase.1
        "TopBackCenter" snapAndBase.2 ⟨0, 0, fallbackHeight⟩
      { wall with topTransform := some topWorld }

end RoomGen

/-- Spec-side description of the stacked layers a tracked segment grows (the
amended claim): a record exists exactly for segments whose module defines a
middle-1 mesh; the middle-1 transform chains to the base mesh's attachment
socket over the base transform; a middle-2 layer is produced only when both
middle-1 and middle-2 meshes are defined, chaining to the middle-1 mesh's
socket; a top transform is produced only when a top mesh is defined, resting
on middle-2 if present, else middle-1 (each chaining falling back to the
configured vertical offset when the socket is undefined). -/
def wallLayersSpec {T : Type} (comp : T → T → T) (mkT : Vec3 → Vec3 → T)
    (fallbackHeight : ℚ) (seg : FGeneratorWallSegment T) :
    Option (FPlacedWallInfo T) :=
  match seg.wallModule with
  | none => none
  | some M =>
    match M.middleMesh1 with
    | none => none
    | some m1 =>
      let mid1 := Helpers.CalculateSocketWorldTransform comp mkT seg.baseMesh
        "TopBackCenter" seg.baseTransform ⟨0, 0, fallbackHeight⟩
      let mid2 : Option T :=
        match M.middleMesh2 with
        | none => none
        | some _ => some (Helpers.CalculateSocketWorldTransform comp mkT (some m1)
            "TopBackCenter" mid1 ⟨0, 0, fallbackHeight⟩)
      let top : Option T :=
        match M.topMesh with
        | none => none
        | some _ =>
          match M.middleMesh2 with
          | some m2 => some (Helpers.CalculateSocketWorldTransform comp mkT (some m2)
              "TopBackCenter" (Helpers.CalculateSocketWorldTransform comp mkT (some m1)
                "TopBackCenter" mid1 ⟨0, 0, fallbackHeight⟩) ⟨0, 0, fallbackHeight⟩)
          | none => some (Helpers.CalculateSocketWorldTransform comp mkT (some m1)
              "TopBackCenter" mid1 ⟨0, 0, fallbackHeight⟩)
      some ⟨seg.edge, seg.startCell, seg.segmentLength, M, seg.baseTransform,
        mid1, mid2, top⟩

/-- Trivial transform algebra used for the concrete counterexample. -/
def unitComp : Unit → Unit → Unit := fun _ _ => ()

/-- Trivial transform constructor for the concrete counterexample. -/
def unitMkT : Vec3 → Vec3 → Unit := fun _ _ => ()

/-- A wall module defining a top mesh but no middle-1 mesh. -/
def cexTopOnlyModule : FWallModuleQ := ⟨1, none, none, none, some ⟨[]⟩, 1⟩

/-- A tracked base segment using `cexTopOnlyModule`. -/
def cexSegment : FGeneratorWallSegment Unit := ⟨.North, 0, 1, (), none, some cexTopOnlyModule⟩

/-- C2 counterexample: a tracked base segment whose wall module defines a top
mesh but no middle-1 mesh produces NO wall record at all — in particular no
top-layer transform — because `SpawnTopWallLayer` only iterates the records
`SpawnMiddleWallLayers` created for modules with a middle-1 mesh. -/
theorem C2_counterexample_top_without_middle1 :
    cexTopOnlyModule.topMesh.isSome = true ∧
    RoomGen.SpawnTopWallLayer unitComp unitMkT () 100
      (RoomGen.SpawnMiddleWallLayers unitComp unitMkT 100 [cexSegment]) = [] := by
  decide

/-- C2 (amended): wall-layer stacking equals its per-segment specification: a
record is produced exactly for tracked segments whose module defines a
middle-1 mesh; for those, the middle-1 transform chains to the base mesh's
`TopBackCenter` socket over the base transform (falling back to the configured
vertical offset), a middle-2 transform is produced only when a middle-2 mesh
is also defined, and a top transform is produced when a top mesh is defined,
resting on middle-2 if present else middle-1; a top mesh without a middle-1
mesh yields no top layer. -/
theorem C2_wall_layer_stacking {T : Type} (comp : T → T → T) (mkT : Vec3 → Vec3 → T)
    (idT : T) (fallbackHeight : ℚ) (segments : List (FGeneratorWallSegment T)) :
    RoomGen.SpawnTopWallLayer comp mkT idT fallbackHeight
        (RoomGen.SpawnMiddleWallLayers comp mkT fallbackHeight segments) =
      segments.filterMap (wallLayersSpec comp mkT fallbackHeight) := by
  unfold RoomGen.SpawnTopWallLayer RoomGen.SpawnMiddleWallLayers
  rw [List.map_filterMap]
  apply List.filterMap_congr
  intro seg _
  obtain ⟨edge, startCell, segLen, baseT, baseMesh, wallModule⟩ := seg
  unfold wallLayersSpec
  cases wallModule with
  | none => rfl
  | some M =>
    obtain ⟨fp, bm, mm1, mm2, tm, w⟩ := M
    cases mm1 with
    | none => rfl
    | some m1 =>
      cases mm2 with
      | none =>
        cases tm with
        | none => rfl
        | some t => rfl
      | some m2 =>
        cases tm with
        | none => rfl
        | some t => rfl

/-! ## C6: greedy wall packing (`URoomGenerator::FillWallEdge`) -/

namespace Helpers

/-- `URoomGenerationHelpers::CalculateWallPosition`
(RoomGenerationHelpers.cpp:169-198). -/
def CalculateWallPosition (edge : EWallEdge) (startCell spanLength : Int)
    (gridSize : IntPt)
    (cellSize northOffset southOffset eastOffset westOffset : ℚ) : Vec3 :=
  let halfSpan := ((spanLength : ℚ) * cellSize) * (1 / 2)
  match edge with
  | .North => ⟨(gridSize.x : ℚ) * cellSize + northOffset,
               (startCell : ℚ) * cellSize + halfSpan, 0⟩
  | .South => ⟨0 + southOffset, (startCell : ℚ) * cellSize + halfSpan, 0⟩
  | .East  => ⟨(startCell : ℚ) * cellSize + halfSpan,
               (gridSize.y : ℚ) * cellSize + eastOffset, 0⟩
  | .West  => ⟨(startCell : ℚ) * cellSize + halfSpan, 0 + westOffset, 0⟩

end Helpers

/-- The four per-edge wall offsets `FillWallEdge` reads from `WallData`. -/
structure WallOffsetsQ where
  north : ℚ
  south : ℚ
  east : ℚ
  west : ℚ
deriving DecidableEq, Repr

namespace RoomGen

/-- `URoomGenerator::IsCellPartOfDoorway` (RoomGenerator.cpp:1169-1194):
a cell belongs to a doorway when it equals one of the edge cells spanned by
some placed doorway (span reads are guarded by `CellIndex >= 0 && CellIndex <
EdgeCells.Num()`, the guard `listGet` models). -/
def IsCellPartOfDoorway (gridSize : IntPt) (doorways : List FPlacedDoorwayInfo)
    (cell : IntPt) : Bool :=
  doorways.any fun dw =>
    (List.range dw.widthInCells.toNat).any fun (i : Nat) =>
      match listGet (Helpers.GetEdgeCellIndices dw.edge gridSize)
          (dw.startCell + (i : Int)) with
      | some doorwayCell => doorwayCell == cell
      | none => false

/-- `URoomGenerator::IsCellRangeOccupied` (RoomGenerator.cpp:661-675):
some tracked segment on the same edge overlaps the half-open range
`[startCell, startCell + length)`. -/
def IsCellRangeOccupied {T : Type} (segments : List (FGeneratorWallSegment T))
    (edge : EWallEdge) (startCell length : Int) : Bool :=
  segments.any fun s =>
    s.edge == edge &&
      decide (startCell < s.startCell + s.segmentLength) &&
      decide (s.startCell < startCell + length)

/-- One step of `FillWallEdge`'s best-module selection: keep the incumbent
unless the candidate's footprint is strictly larger (`!BestModule ||
Module.Y_AxisFootprint > BestModule->Y_AxisFootprint`). -/
def pickLarger (best : Option FWallModuleQ) (M : FWallModuleQ) :
    Option FWallModuleQ :=
  match best with
  | none => some M
  | some b => if M.yAxisFootprint > b.yAxisFootprint then some M else best

/-- The module-selection `for` loop inside `FillWallEdge`'s `while` body
(RoomGenerator.cpp:2076-2112): skip a module whose span overlaps a doorway
cell (span reads are within bounds since the scan cell is nonnegative), else
keep it as best when it fits the remaining space, does not overlap an
occupied range, and beats the incumbent's footprint. -/
def bestWallModule (gridSize : IntPt) (doorways : List FPlacedDoorwayInfo)
    (edge : EWallEdge) (segs : List (FGeneratorWallSegment FTransformQ))
    (modules : List FWallModuleQ) (c : Int) : Option FWallModuleQ :=
  modules.foldl (fun best M =>
    if ((List.range M.yAxisFootprint.toNat).any fun (i : Nat) =>
        match listGet (Helpers.GetEdgeCellIndices edge gridSize)
            (c + (i : Int)) with
        | some checkCell => IsCellPartOfDoorway gridSize doorways checkCell
        | none => false) then best
    else if decide (M.yAxisFootprint ≤
          ((Helpers.GetEdgeCellIndices edge gridSize).length : Int) - c) &&
        !IsCellRangeOccupied segs edge c M.yAxisFootprint then
      pickLarger best M
    else best) none

/-- The `while` loop of `URoomGenerator::FillWallEdge`
(RoomGenerator.cpp:2049-2157), fuel-bounded; state is the scan cell and the
tracked base wall segments. A doorway cell or an occupied cell is skipped;
else the best module is placed (appending a segment with the wall rotation
and `CalculateWallPosition` transform) and the scan advances by its
footprint, or by 1 when no module fits; a chosen module whose base mesh
fails to load ends the loop (`break`). -/
def fillWallEdgeLoop (gridSize : IntPt) (cellSize : ℚ) (offs : WallOffsetsQ)
    (edge : EWallEdge) (modules : List FWallModuleQ)
    (doorways : List FPlacedDoorwayInfo) :
    Nat → Int → List (FGeneratorWallSegment FTransformQ) →
      List (FGeneratorWallSegment FTransformQ)
  | 0, _, segs => segs
  | fuel + 1, currentCell, segs =>
    if currentCell < ((Helpers.GetEdgeCellIndices edge gridSize).length : Int) then
      match listGet (Helpers.GetEdgeCellIndices edge gridSize) currentCell with
      | none => segs
      | some cellToCheck =>
        if IsCellPartOfDoorway gridSize doorways cellToCheck then
          fillWallEdgeLoop gridSize cellSize offs edge modules doorways fuel
            (currentCell + 1) segs
        else if IsCellRangeOccupied segs edge currentCell 1 then
          fillWallEdgeLoop gridSize cellSize offs edge modules doorways fuel
            (currentCell + 1) segs
        else
          match bestWallModule gridSize doorways edge segs modules currentCell with
          | none =>
            fillWallEdgeLoop gridSize cellSize offs edge modules doorways fuel
              (currentCell + 1) segs
          | some M =>
            match M.baseMesh with
            | none => segs
            | some bm =>
              fillWallEdgeLoop gridSize cellSize offs edge modules doorways fuel
                (currentCell + M.yAxisFootprint)
                (segs ++ [⟨edge, currentCell, M.yAxisFootprint,
                  ⟨Helpers.GetWallRotationForEdge edge,
                   Helpers.CalculateWallPosition edge currentCell
                     M.yAxisFootprint gridSize cellSize
                     offs.north offs.south offs.east offs.west⟩,
                  some bm, some M⟩])
    else segs

/-- `URoomGenerator::FillWallEdge` (RoomGenerator.cpp:2033-2158): early
return when the module list or the edge-cell list is empty, else run the
greedy scan from cell 0. The fuel `length + 1` never runs out when every
module footprint is positive, since the scan cell strictly increases. -/
def FillWallEdge (gridSize : IntPt) (cellSize : ℚ) (offs : WallOffsetsQ)
    (edge : EWallEdge) (modules : List FWallModuleQ)
    (doorways : List FPlacedDoorwayInfo)
    (segs : List (FGeneratorWallSegment FTransformQ)) :
    List (FGeneratorWallSegment FTransformQ) :=
  if modules.isEmpty then segs
  else if (Helpers.GetEdgeCellIndices edge gridSize).isEmpty then segs
  else fillWallEdgeLoop gridSize cellSize offs edge modules doorways
    ((Helpers.GetEdgeCellIndices edge gridSize).length + 1) 0 segs

end RoomGen

/-- Spec-side: the module span `[c, c + footprint)` overlaps no doorway cell
anywhere (out-of-range span positions have no cell to overlap). -/
def spanClearOfDoorways (gridSize : IntPt) (doorways : List FPlacedDoorwayInfo)
    (edge : EWallEdge) (c footprint : Int) : Bool :=
  (List.range footprint.toNat).all fun (i : Nat) =>
    match listGet (Helpers.GetEdgeCellIndices edge gridSize) (c + (i : Int)) with
    | some cell => !RoomGen.IsCellPartOfDoorway gridSize doorways cell
    | none => true

/-- Spec-side eligibility of a wall module at scan cell `c`: it fits in the
remaining space, overlaps no doorway cell anywhere in its span, and overlaps
no previously-tracked forced-wall range (half-open intervals). -/
def eligibleWallModule (gridSize : IntPt) (doorways : List FPlacedDoorwayInfo)
    (edge : EWallEdge) (forced : List (FGeneratorWallSegment FTransformQ))
    (c : Int) (M : FWallModuleQ) : Bool :=
  decide (M.yAxisFootprint ≤
      ((Helpers.GetEdgeCellIndices edge gridSize).length : Int) - c) &&
    spanClearOfDoorways gridSize doorways edge c M.yAxisFootprint &&
    !RoomGen.IsCellRangeOccupied forced edge c M.yAxisFootprint

/-- The first module of largest footprint in a list (`none` iff empty). -/
def firstLargest (l : List FWallModuleQ) : Option FWallModuleQ :=
  l.foldl RoomGen.pickLarger none

/-- The segment record the packing loop tracks for a module chosen at scan
cell `c`: the wall rotation for the edge and the `CalculateWallPosition`
location, the module's base mesh and the module itself. -/
def mkWallSegment (gridSize : IntPt) (cellSize : ℚ) (offs : WallOffsetsQ)
    (edge : EWallEdge) (c : Int) (M : FWallModuleQ) :
    FGeneratorWallSegment FTransformQ :=
  { edge := edge, startCell := c, segmentLength := M.yAxisFootprint,
    baseTransform :=
      ⟨Helpers.GetWallRotationForEdge edge,
       Helpers.CalculateWallPosition edge c M.yAxisFootprint gridSize cellSize
         offs.north offs.south offs.east offs.west⟩,
    baseMesh := M.baseMesh, wallModule := some M }

/-- Spec-side greedy packing scan, phrased from the claim: left to right over
the edge's cell list; a cell already claimed by a doorway or by a forced wall
is skipped; otherwise the first module of largest footprint among the
eligible ones is placed and the scan advances by its footprint, or by
exactly 1 cell when none is eligible. Occupancy is always tested against the
segment list as it stood on entry (`forced`); emits the new segments in scan
order. -/
def WallPackSpecLoop (gridSize : IntPt) (cellSize : ℚ) (offs : WallOffsetsQ)
    (edge : EWallEdge) (modules : List FWallModuleQ)
    (doorways : List FPlacedDoorwayInfo)
    (forced : List (FGeneratorWallSegment FTransformQ)) :
    Nat → Int → List (FGeneratorWallSegment FTransformQ)
  | 0, _ => []
  | fuel + 1, c =>
    if c < ((Helpers.GetEdgeCellIndices edge gridSize).length : Int) then
      match listGet (Helpers.GetEdgeCellIndices edge gridSize) c with
      | none => []
      | some cell =>
        if RoomGen.IsCellPartOfDoorway gridSize doorways cell ||
            RoomGen.IsCellRangeOccupied forced edge c 1 then
          WallPackSpecLoop gridSize cellSize offs edge modules doorways forced
            fuel (c + 1)
        else
          match firstLargest
              (modules.filter (eligibleWallModule gridSize doorways edge forced c)) with
          | none =>
            WallPackSpecLoop gridSize cellSize offs edge modules doorways forced
              fuel (c + 1)
          | some M =>
            mkWallSegment gridSize cellSize offs edge c M ::
              WallPackSpecLoop gridSize cellSize offs edge modules doorways
                forced fuel (c + M.yAxisFootprint)
    else []

/-- A fold whose body is guarded by a predicate equals the plain fold over
the filtered list. -/
lemma foldl_guard_filter {α β : Type} (p : α → Bool) (f : β → α → β) :
    ∀ (l : List α) (b : β),
      l.foldl (fun acc x => if p x then f acc x else acc) b =
        (l.filter p).foldl f b := by
  intro l
  induction l with
  | nil => intro b; rfl
  | cons x xs ih =>
    intro b
    cases hp : p x
    · rw [List.foldl_cons, if_neg (by simp [hp]), List.filter_cons,
        if_neg (by simp [hp])]
      exact ih b
    · rw [List.foldl_cons, if_pos hp, List.filter_cons, if_pos hp,
        List.foldl_cons]
      exact ih (f b x)

/-- Folding `pickLarger` from an incumbent yields a member (or the incumbent)
whose footprint dominates the incumbent's and every list element's. -/
lemma pickLarger_run (l : List FWallModuleQ) :
    ∀ (b : FWallModuleQ),
      ∃ c, l.foldl RoomGen.pickLarger (some b) = some c ∧ (c = b ∨ c ∈ l) ∧
        b.yAxisFootprint ≤ c.yAxisFootprint ∧
        ∀ M ∈ l, M.yAxisFootprint ≤ c.yAxisFootprint := by
  induction l with
  | nil => intro b; exact ⟨b, rfl, Or.inl rfl, le_refl _, by simp⟩
  | cons x xs ih =>
    intro b
    rw [List.foldl_cons]
    by_cases hx : x.yAxisFootprint > b.yAxisFootprint
    · rw [show RoomGen.pickLarger (some b) x = some x by
        show (if x.yAxisFootprint > b.yAxisFootprint then some x else some b) = some x
        rw [if_pos hx]]
      obtain ⟨c, hc, hmem, hle, hmax⟩ := ih x
      refine ⟨c, hc, ?_, le_trans (le_of_lt hx) hle, ?_⟩
      · rcases hmem with h | h
        · exact Or.inr (h ▸ List.mem_cons_self x xs)
        · exact Or.inr (List.mem_cons_of_mem x h)
      · intro M hM
        rcases List.mem_cons.mp hM with h | h
        · exact h ▸ hle
        · exact hmax M h
    · rw [show RoomGen.pickLarger (some b) x = some b by
        show (if x.yAxisFootprint > b.yAxisFootprint then some x else some b) = some b
        rw [if_neg hx]]
      obtain ⟨c, hc, hmem, hle, hmax⟩ := ih b
      refine ⟨c, hc, ?_, hle, ?_⟩
      · rcases hmem with h | h
        · exact Or.inl h
        · exact Or.inr (List.mem_cons_of_mem x h)
      · intro M hM
        rcases List.mem_cons.mp hM with h | h
        · exact h ▸ le_trans (not_lt.mp hx) hle
        · exact hmax M h

/-- `firstLargest` returns a member whose footprint is maximal. -/
lemma firstLargest_some (l : List FWallModuleQ) (M : FWallModuleQ)
    (h : firstLargest l = some M) :
    M ∈ l ∧ ∀ M' ∈ l, M'.yAxisFootprint ≤ M.yAxisFootprint := by
  cases l with
  | nil => simp [firstLargest] at h
  | cons x xs =>
    obtain ⟨c, hc, hmem, hle, hmax⟩ := pickLarger_run xs x
    have hfl : firstLargest (x :: xs) = some c := by
      unfold firstLargest
      rw [List.foldl_cons]
      exact hc
    rw [hfl] at h
    injection h with h
    subst h
    constructor
    · rcases hmem with h | h
      · exact h ▸ List.mem_cons_self x xs
      · exact List.mem_cons_of_mem x h
    · intro M' hM'
      rcases List.mem_cons.mp hM' with h | h
      · exact h ▸ hle
      · exact hmax M' h

/-- `firstLargest` succeeds on every nonempty list. -/
lemma firstLargest_ne_nil (l : List FWallModuleQ) (h : l ≠ []) :
    (firstLargest l).isSome = true := by
  cases l with
  | nil => exact absurd rfl h
  | cons x xs =>
    obtain ⟨c, hc, _, _, _⟩ := pickLarger_run xs x
    unfold firstLargest
    rw [List.foldl_cons]
    rw [show RoomGen.pickLarger none x = some x from rfl, hc]
    rfl

/-- Appended segments that end at or before `a` on the tested edge do not
change an occupancy test of a range starting at `a`. -/
lemma isCellRangeOccupied_append {T : Type}
    (S₁ S₂ : List (FGeneratorWallSegment T)) (edge : EWallEdge) (a L : Int)
    (h : ∀ s ∈ S₂, s.edge = edge → s.startCell + s.segmentLength ≤ a) :
    RoomGen.IsCellRangeOccupied (S₁ ++ S₂) edge a L =
      RoomGen.IsCellRangeOccupied S₁ edge a L := by
  unfold RoomGen.IsCellRangeOccupied
  rw [List.any_append]
  have h2 : (S₂.any fun s =>
      s.edge == edge && decide (a < s.startCell + s.segmentLength) &&
        decide (s.startCell < a + L)) = false := by
    rw [List.any_eq_false]
    intro s hs
    simp only [Bool.and_eq_true, beq_iff_eq, decide_eq_true_eq, not_and]
    rintro ⟨he, hlt⟩
    exact absurd hlt (by have := h s hs he; omega)
  rw [h2, Bool.or_false]

/-- The loop's truncated doorway-overlap test for a module span is exactly
the negation of the spec-side span-clear test: out-of-range span positions
contribute `false` to the one and `true` to the other. -/
lemma overlaps_eq_not_clear (gridSize : IntPt)
    (doorways : List FPlacedDoorwayInfo) (edge : EWallEdge) (c fp : Int) :
    ((List.range fp.toNat).any fun (i : Nat) =>
        match listGet (Helpers.GetEdgeCellIndices edge gridSize)
            (c + (i : Int)) with
        | some checkCell => RoomGen.IsCellPartOfDoorway gridSize doorways checkCell
        | none => false) =
      !spanClearOfDoorways gridSize doorways edge c fp := by
  unfold spanClearOfDoorways
  rw [List.all_eq_not_any_not, Bool.not_not]
  congr 1
  funext i
  cases h : listGet (Helpers.GetEdgeCellIndices edge gridSize) (c + (i : Int)) <;>
    simp

/-- When occupancy tests at the scan cell agree between the live segment
list and the entry list, the loop's best-module fold equals the first
largest eligible module. -/
lemma bestWallModule_eq_firstLargest (gridSize : IntPt)
    (doorways : List FPlacedDoorwayInfo) (edge : EWallEdge)
    (segs forced : List (FGeneratorWallSegment FTransformQ))
    (modules : List FWallModuleQ) (c : Int)
    (hocc : ∀ L : Int, RoomGen.IsCellRangeOccupied segs edge c L =
      RoomGen.IsCellRangeOccupied forced edge c L) :
    RoomGen.bestWallModule gridSize doorways edge segs modules c =
      firstLargest (modules.filter (eligibleWallModule gridSize doorways edge forced c)) := by
  unfold RoomGen.bestWallModule firstLargest
  rw [← foldl_guard_filter]
  apply List.foldl_ext
  intro best M hM
  rw [overlaps_eq_not_clear, hocc M.yAxisFootprint]
  unfold eligibleWallModule
  cases hclear : spanClearOfDoorways gridSize doorways edge c M.yAxisFootprint
  · rw [if_pos (by simp), if_neg (by simp)]
  · rw [if_neg (by simp)]
    simp only [Bool.and_true]

/-- Spec-side wall packing of a whole edge, from cell 0 with the same fuel
bound as the implementation. -/
def WallPackSpec (gridSize : IntPt) (cellSize : ℚ) (offs : WallOffsetsQ)
    (edge : EWallEdge) (modules : List FWallModuleQ)
    (doorways : List FPlacedDoorwayInfo)
    (forced : List (FGeneratorWallSegment FTransformQ)) :
    List (FGeneratorWallSegment FTransformQ) :=
  WallPackSpecLoop gridSize cellSize offs edge modules doorways forced
    ((Helpers.GetEdgeCellIndices edge gridSize).length + 1) 0

/-- The spec-side scan emits nothing once past the edge-cell list. -/
lemma wallPackSpecLoop_oob (gridSize : IntPt) (cellSize : ℚ)
    (offs : WallOffsetsQ) (edge : EWallEdge) (modules : List FWallModuleQ)
    (doorways : List FPlacedDoorwayInfo)
    (forced : List (FGeneratorWallSegment FTransformQ)) (fuel : Nat) (c : Int)
    (h : ¬ c < ((Helpers.GetEdgeCellIndices edge gridSize).length : Int)) :
    WallPackSpecLoop gridSize cellSize offs edge modules doorways forced fuel c
      = [] := by
  cases fuel with
  | zero => rfl
  | succ fuel =>
    simp only [WallPackSpecLoop]
    rw [if_neg h]

/-- The spec-side scan emits nothing when there are no modules. -/
lemma wallPackSpecLoop_nil (gridSize : IntPt) (cellSize : ℚ)
    (offs : WallOffsetsQ) (edge : EWallEdge)
    (doorways : List FPlacedDoorwayInfo)
    (forced : List (FGeneratorWallSegment FTransformQ)) :
    ∀ (fuel : Nat) (c : Int),
      WallPackSpecLoop gridSize cellSize offs edge [] doorways forced fuel c
        = [] := by
  intro fuel
  induction fuel with
  | zero => intro c; rfl
  | succ fuel ih =>
    intro c
    simp only [WallPackSpecLoop]
    by_cases hlt : c < ((Helpers.GetEdgeCellIndices edge gridSize).length : Int)
    · rw [if_pos hlt]
      cases hcell : listGet (Helpers.GetEdgeCellIndices edge gridSize) c with
      | none => rfl
      | some cell =>
        dsimp only
        cases hcond : (RoomGen.IsCellPartOfDoorway gridSize doorways cell ||
            RoomGen.IsCellRangeOccupied forced edge c 1)
        · rw [if_neg Bool.false_ne_true]
          exact ih (c + 1)
        · rw [if_pos rfl]
          exact ih (c + 1)
    · rw [if_neg hlt]

/-- The implementation loop run from a live segment list whose occupancy
tests at or past the scan cell agree with the entry list equals the entry
segments followed by the spec-side scan's output. -/
lemma fillWallEdgeLoop_eq_spec (gridSize : IntPt) (cellSize : ℚ)
    (offs : WallOffsetsQ) (edge : EWallEdge) (modules : List FWallModuleQ)
    (doorways : List FPlacedDoorwayInfo)
    (forced : List (FGeneratorWallSegment FTransformQ))
    (hmesh : ∀ M ∈ modules, M.baseMesh.isSome = true)
    (hfp : ∀ M ∈ modules, 1 ≤ M.yAxisFootprint) :
    ∀ (fuel : Nat) (c : Int) (S : List (FGeneratorWallSegment FTransformQ)),
      0 ≤ c →
      (∀ (a L : Int), c ≤ a →
        RoomGen.IsCellRangeOccupied S edge a L =
          RoomGen.IsCellRangeOccupied forced edge a L) →
      RoomGen.fillWallEdgeLoop gridSize cellSize offs edge modules doorways
          fuel c S =
        S ++ WallPackSpecLoop gridSize cellSize offs edge modules doorways
          forced fuel c := by
  intro fuel
  induction fuel with
  | zero =>
    intro c S _ _
    simp [RoomGen.fillWallEdgeLoop, WallPackSpecLoop]
  | succ fuel ih =>
    intro c S hc hinv
    simp only [RoomGen.fillWallEdgeLoop, WallPackSpecLoop]
    by_cases hlt : c < ((Helpers.GetEdgeCellIndices edge gridSize).length : Int)
    · rw [if_pos hlt, if_pos hlt]
      cases hcell : listGet (Helpers.GetEdgeCellIndices edge gridSize) c with
      | none => exact (List.append_nil S).symm
      | some cell =>
        dsimp only
        cases hdw : RoomGen.IsCellPartOfDoorway gridSize doorways cell with
        | true =>
          rw [if_pos rfl, if_pos (by simp)]
          exact ih (c + 1) S (by omega) (fun a L ha => hinv a L (by omega))
        | false =>
          rw [if_neg Bool.false_ne_true]
          cases hocc1 : RoomGen.IsCellRangeOccupied S edge c 1 with
          | true =>
            have hoccF : RoomGen.IsCellRangeOccupied forced edge c 1 = true := by
              rw [← hinv c 1 (le_refl c)]
              exact hocc1
            rw [if_pos rfl, if_pos (by simp [hoccF])]
            exact ih (c + 1) S (by omega) (fun a L ha => hinv a L (by omega))
          | false =>
            have hoccF : RoomGen.IsCellRangeOccupied forced edge c 1 = false := by
              rw [← hinv c 1 (le_refl c)]
              exact hocc1
            rw [if_neg Bool.false_ne_true, if_neg (by simp [hoccF])]
            rw [bestWallModule_eq_firstLargest gridSize doorways edge S forced
              modules c (fun L => hinv c L (le_refl c))]
            cases hbest : firstLargest (modules.filter
                (eligibleWallModule gridSize doorways edge forced c)) with
            | none =>
              exact ih (c + 1) S (by omega) (fun a L ha => hinv a L (by omega))
            | some M =>
              dsimp only
              obtain ⟨hMf, hmax⟩ := firstLargest_some _ M hbest
              obtain ⟨hMmod, helig⟩ := List.mem_filter.mp hMf
              obtain ⟨bm, hbm⟩ := Option.isSome_iff_exists.mp (hmesh M hMmod)
              have hfpM := hfp M hMmod
              rw [hbm]
              show RoomGen.fillWallEdgeLoop gridSize cellSize offs edge modules
                  doorways fuel (c + M.yAxisFootprint)
                  (S ++ [⟨edge, c, M.yAxisFootprint,
                    ⟨Helpers.GetWallRotationForEdge edge,
                     Helpers.CalculateWallPosition edge c M.yAxisFootprint
                       gridSize cellSize offs.north offs.south offs.east
                       offs.west⟩, some bm, some M⟩]) =
                S ++ (mkWallSegment gridSize cellSize offs edge c M ::
                  WallPackSpecLoop gridSize cellSize offs edge modules doorways
                    forced fuel (c + M.yAxisFootprint))
              have hseg : (⟨edge, c, M.yAxisFootprint,
                  ⟨Helpers.GetWallRotationForEdge edge,
                   Helpers.CalculateWallPosition edge c M.yAxisFootprint
                     gridSize cellSize offs.north offs.south offs.east
                     offs.west⟩, some bm, some M⟩ :
                    FGeneratorWallSegment FTransformQ) =
                  mkWallSegment gridSize cellSize offs edge c M := by
                unfold mkWallSegment
                rw [hbm]
              rw [hseg, show S ++ (mkWallSegment gridSize cellSize offs edge c M ::
                  WallPackSpecLoop gridSize cellSize offs edge modules doorways
                    forced fuel (c + M.yAxisFootprint)) =
                (S ++ [mkWallSegment gridSize cellSize offs edge c M]) ++
                  WallPackSpecLoop gridSize cellSize offs edge modules doorways
                    forced fuel (c + M.yAxisFootprint) from by
                rw [List.append_assoc, List.singleton_append]]
              apply ih (c + M.yAxisFootprint)
                (S ++ [mkWallSegment gridSize cellSize offs edge c M]) (by omega)
              intro a L ha
              have hend : ∀ s ∈ [mkWallSegment gridSize cellSize offs edge c M],
                  s.edge = edge → s.startCell + s.segmentLength ≤ a := by
                intro s hs _
                rw [List.mem_singleton] at hs
                subst hs
                show c + M.yAxisFootprint ≤ a
                exact ha
              rw [isCellRangeOccupied_append S _ edge a L hend]
              exact hinv a L (by omega)
    · rw [if_neg hlt, if_neg hlt, List.append_nil]

/-- C6: wall packing on an edge is a greedy left-to-right scan: cells
already claimed by a doorway or by a forced wall advance the scan by 1;
otherwise the module placed is the first one of largest footprint among
those that fit the remaining space, overlap no doorway cell anywhere in
their span, and overlap no previously-tracked forced-wall range (half-open
interval overlap, tested against the segment list as it stood on entry —
equivalent because every segment this scan adds ends at or before the scan
cell); the scan advances by the chosen footprint, or by exactly 1 when no
module is eligible. `firstLargest` indeed returns an eligible module of
maximal footprint, and succeeds whenever some module is eligible. Stated
for module lists with positive footprints and loadable base meshes (a base
mesh that fails to load aborts the C++ loop). -/
theorem C6_wall_packing_greedy (gridSize : IntPt) (cellSize : ℚ)
    (offs : WallOffsetsQ) (edge : EWallEdge) (modules : List FWallModuleQ)
    (doorways : List FPlacedDoorwayInfo)
    (forced : List (FGeneratorWallSegment FTransformQ))
    (hmesh : ∀ M ∈ modules, M.baseMesh.isSome = true)
    (hfp : ∀ M ∈ modules, 1 ≤ M.yAxisFootprint) :
    RoomGen.FillWallEdge gridSize cellSize offs edge modules doorways forced =
      forced ++
        WallPackSpec gridSize cellSize offs edge modules doorways forced ∧
    (∀ (l : List FWallModuleQ) (M : FWallModuleQ), firstLargest l = some M →
      M ∈ l ∧ ∀ M' ∈ l, M'.yAxisFootprint ≤ M.yAxisFootprint) ∧
    (∀ l : List FWallModuleQ, l ≠ [] → (firstLargest l).isSome = true) := by
  refine ⟨?_, fun l M h => firstLargest_some l M h,
    fun l h => firstLargest_ne_nil l h⟩
  unfold RoomGen.FillWallEdge WallPackSpec
  by_cases hm : modules.isEmpty
  · rw [if_pos hm]
    rw [List.isEmpty_iff.mp hm, wallPackSpecLoop_nil, List.append_nil]
  · rw [if_neg hm]
    by_cases he : (Helpers.GetEdgeCellIndices edge gridSize).isEmpty
    · rw [if_pos he]
      rw [wallPackSpecLoop_oob gridSize cellSize offs edge modules doorways
        forced _ 0 (by rw [List.isEmpty_iff.mp he]; decide), List.append_nil]
    · rw [if_neg he]
      exact fillWallEdgeLoop_eq_spec gridSize cellSize offs edge modules
        doorways forced hmesh hfp _ 0 forced (le_refl 0) (fun a L _ => rfl)

/-! ## C1: floor generation (`URoomGenerator::GenerateFloor`) -/

namespace Helpers

/-- The cumulative-weight scan of `SelectWeightedRandom`: return the first
item whose running total reaches `rv`; when no item does, the loop falls
through and `Items.Last()` is returned. -/
def selectWeightedScan {α : Type} (weight : α → ℚ) (rv : ℚ) :
    List α → ℚ → Option α
  | [], _ => none
  | it :: rest, cw =>
    if rv ≤ cw + weight it then some it
    else
      match rest with
      | [] => some it
      | r :: rs => selectWeightedScan weight rv (r :: rs) (cw + weight it)

/-- `URoomGenerationHelpers::SelectWeightedRandom`
(RoomGenerationHelpers.h:139-167): `nullptr` on an empty array; a uniform
pick when the total weight is nonpositive (the draw `RandRange(0, Num-1)`
modelled by `ri % Num`); otherwise the cumulative scan against a value `rv`
sampled from `[0, total]`. -/
def SelectWeightedRandom {α : Type} (items : List α) (weight : α → ℚ)
    (ri : Nat) (rv : ℚ) : Option α :=
  if items.length = 0 then none
  else if items.foldl (fun acc it => acc + weight it) 0 ≤ 0 then
    items[ri % items.length]?
  else selectWeightedScan weight rv items 0

end Helpers

/-- Modelled from the spec: a default-constructed `FMeshPlacementInfo`
(RoomGenerationTypes.h is not in src/): null mesh, zero footprint, no
rotations, weight 1. -/
def defaultMeshInfo : FMeshPlacementInfo := ⟨⟨0, 0⟩, [], true, 1⟩

/-- Modelled from the spec: `FForcedEmptyRegion` (RoomData.h is not in
src/): a rectangular region given by two corner cells in any order. -/
structure FForcedEmptyRegion where
  startCell : IntPt
  endCell : IntPt
deriving DecidableEq, Repr

/-- `FMath::Clamp` on `int32`. -/
def clampInt (v lo hi : Int) : Int :=
  if v < lo then lo else if v > hi then hi else v

namespace RoomGen

/-- `URoomGenerator::SelectWeightedMesh` (RoomGenerator.cpp:1614-1624):
delegate to `SelectWeightedMeshPlacement` (weight = `PlacementWeight`),
returning a default-constructed info when the pool is empty. -/
def SelectWeightedMesh (pool : List FMeshPlacementInfo) (ri : Nat) (rv : ℚ) :
    FMeshPlacementInfo :=
  match Helpers.SelectWeightedRandom pool (fun m => m.placementWeight) ri rv with
  | some m => m
  | none => defaultMeshInfo

/-- The tile-size filter shared by `FillWithTileSize` and
`FillRemainingGaps`: the footprint matches the target size directly or
transposed. -/
def matchesTargetSize (targetSize : IntPt) (meshInfo : FMeshPlacementInfo) :
    Bool :=
  (CalculateFootprint meshInfo).x == targetSize.x &&
      (CalculateFootprint meshInfo).y == targetSize.y ||
    (CalculateFootprint meshInfo).x == targetSize.y &&
      (CalculateFootprint meshInfo).y == targetSize.x

/-- The per-cell placement attempt shared by `FillWithTileSize`
(RoomGenerator.cpp:1563-1610) and `FillRemainingGaps` (379-434): when the
area is available, draw a weighted mesh from the matching pool (consuming
one random draw), pick a uniformly random rotation among the declared
rotations whose rotated footprint equals the target size (consuming one
more draw when that list is nonempty; rotation 0 otherwise), and try the
placement. The state is `(grid, records, random counter)`. -/
def fillCellStep (gridSize : IntPt) (cellSize : ℚ) (target : EGridCellType)
    (matching : List FMeshPlacementInfo) (targetSize : IntPt)
    (ρ : Nat → Nat) (σ : Nat → ℚ)
    (st : List EGridCellType × List FPlacedMeshInfo × Nat)
    (startCoord : IntPt) : List EGridCellType × List FPlacedMeshInfo × Nat :=
  let gs := st.1
  let placed := st.2.1
  let k := st.2.2
  if Helpers.IsAreaAvailable gs gridSize startCoord targetSize target then
    let selectedMesh := SelectWeightedMesh matching (ρ k) (σ k)
    let originalFootprint := CalculateFootprint selectedMesh
    let rot : Int × Nat :=
      if selectedMesh.allowedRotations ≠ [] then
        let validRotations := selectedMesh.allowedRotations.filter fun r =>
          (Helpers.GetRotatedFootprint originalFootprint r).x == targetSize.x &&
            (Helpers.GetRotatedFootprint originalFootprint r).y == targetSize.y
        if validRotations ≠ [] then
          ((validRotations[(ρ (k + 1)) % validRotations.length]?).getD 0, k + 2)
        else (0, k + 1)
      else (0, k + 1)
    let r := TryPlaceMesh gridSize cellSize target gs placed startCoord
      targetSize selectedMesh rot.1
    if r.1 then (r.2.1, r.2.2, rot.2) else (gs, placed, rot.2)
  else st

/-- One grid row of the sweep both fill phases run: the inner
`for X` loop at row `y`. -/
def fillRow (gridSize : IntPt) (cellSize : ℚ) (target : EGridCellType)
    (matching : List FMeshPlacementInfo) (targetSize : IntPt)
    (ρ : Nat → Nat) (σ : Nat → ℚ)
    (stY : List EGridCellType × List FPlacedMeshInfo × Nat) (y : Nat) :
    List EGridCellType × List FPlacedMeshInfo × Nat :=
  (List.range gridSize.x.toNat).foldl
    (fun st' (x : Nat) =>
      fillCellStep gridSize cellSize target matching targetSize ρ σ st'
        ⟨(x : Int), (y : Int)⟩)
    stY

/-- The row-major sweep both fill phases run: `for Y … for X …`, attempting
a placement at every coordinate. -/
def fillSweep (gridSize : IntPt) (cellSize : ℚ) (target : EGridCellType)
    (matching : List FMeshPlacementInfo) (targetSize : IntPt)
    (ρ : Nat → Nat) (σ : Nat → ℚ)
    (st : List EGridCellType × List FPlacedMeshInfo × Nat) :
    List EGridCellType × List FPlacedMeshInfo × Nat :=
  (List.range gridSize.y.toNat).foldl
    (fillRow gridSize cellSize target matching targetSize ρ σ) st

/-- `URoomGenerator::FillWithTileSize` (RoomGenerator.cpp:1531-1611): filter
the pool to the target size (or its transpose), return unchanged when
nothing matches, else sweep the grid. -/
def FillWithTileSize (gridSize : IntPt) (cellSize : ℚ)
    (target : EGridCellType) (tilePool : List FMeshPlacementInfo)
    (targetSize : IntPt) (ρ : Nat → Nat) (σ : Nat → ℚ)
    (st : List EGridCellType × List FPlacedMeshInfo × Nat) :
    List EGridCellType × List FPlacedMeshInfo × Nat :=
  if (tilePool.filter (matchesTargetSize targetSize)).length = 0 then st
  else fillSweep gridSize cellSize target
    (tilePool.filter (matchesTargetSize targetSize)) targetSize ρ σ st

/-- `URoomGenerator::FillRemainingGaps` (RoomGenerator.cpp:339-434): for
each gap size from `1×4` down to `1×1`, filter the pool and sweep the grid
exactly as `FillWithTileSize` does. -/
def FillRemainingGaps (gridSize : IntPt) (cellSize : ℚ)
    (target : EGridCellType) (tilePool : List FMeshPlacementInfo)
    (ρ : Nat → Nat) (σ : Nat → ℚ)
    (st : List EGridCellType × List FPlacedMeshInfo × Nat) :
    List EGridCellType × List FPlacedMeshInfo × Nat :=
  if tilePool.length = 0 then st
  else
    ([⟨1, 4⟩, ⟨4, 1⟩, ⟨1, 2⟩, ⟨2, 1⟩, ⟨1, 1⟩] : List IntPt).foldl
      (fun stS targetSize =>
        if (tilePool.filter (matchesTargetSize targetSize)).length = 0 then stS
        else fillSweep gridSize cellSize target
          (tilePool.filter (matchesTargetSize targetSize)) targetSize ρ σ stS)
      st

/-- `URoomGenerator::ExpandForcedEmptyRegions` (RoomGenerator.cpp:447-489):
expand every rectangular region's bounding box (corners in any order,
clamped to the grid) cell by cell with `AddUnique`, then add the valid
individual forced-empty cells. -/
def ExpandForcedEmptyRegions (gridSize : IntPt)
    (regions : List FForcedEmptyRegion) (forcedCells : List IntPt) :
    List IntPt :=
  let expanded := regions.foldl
    (fun acc region =>
      let minX := clampInt (min region.startCell.x region.endCell.x) 0 (gridSize.x - 1)
      let maxX := clampInt (max region.startCell.x region.endCell.x) 0 (gridSize.x - 1)
      let minY := clampInt (min region.startCell.y region.endCell.y) 0 (gridSize.y - 1)
      let maxY := clampInt (max region.startCell.y region.endCell.y) 0 (gridSize.y - 1)
      (List.range (maxY - minY + 1).toNat).foldl
        (fun accY (dy : Nat) =>
          (List.range (maxX - minX + 1).toNat).foldl
            (fun accX (dx : Nat) =>
              addUnique accX ⟨minX + (dx : Int), minY + (dy : Int)⟩)
            accY)
        acc)
    []
  forcedCells.foldl
    (fun acc cell =>
      if IsValidGridCoordinate gridSize cell then addUnique acc cell else acc)
    expanded

/-- `URoomGenerator::MarkForcedEmptyCells` (RoomGenerator.cpp:491-500):
each listed cell is set to `ECT_WallMesh` (not `ECT_Reserved`). -/
def MarkForcedEmptyCells (gridSize : IntPt) (gs : List EGridCellType)
    (cells : List IntPt) : List EGridCellType :=
  cells.foldl (fun g cell => SetCellState g gridSize cell .ECT_WallMesh) gs

/-- Phases 0-1 of `GenerateFloor`: mark the expanded forced-empty cells
(when any), then run the forced placements on a cleared record list; the
random counter starts at 0. -/
def startFloorState (gridSize : IntPt) (cellSize : ℚ)
    (target : EGridCellType)
    (forcedPlacements : List (IntPt × FMeshPlacementInfo))
    (regions : List FForcedEmptyRegion) (forcedEmptyCells : List IntPt)
    (gs : List EGridCellType) :
    List EGridCellType × List FPlacedMeshInfo × Nat :=
  let forcedEmpty := ExpandForcedEmptyRegions gridSize regions forcedEmptyCells
  let gs0 := if 0 < forcedEmpty.length then
    MarkForcedEmptyCells gridSize gs forcedEmpty else gs
  let r1 := ExecuteForcedPlacements gridSize cellSize target forcedPlacements
    gs0 []
  (r1.1, r1.2.1, 0)

/-- The result `GenerateFloor` reports: success with the final grid and
placement records. -/
def finishFloor (st : List EGridCellType × List FPlacedMeshInfo × Nat) :
    Bool × List EGridCellType × List FPlacedMeshInfo :=
  (true, st.1, st.2.1)

/-- `URoomGenerator::GenerateFloor` (RoomGenerator.cpp:145-216): fail on an
empty floor tile pool (the other early-outs — uninitialized generator,
missing or unloadable floor data — concern asset plumbing kept outside the
model); otherwise run phase 0 (forced-empty marking), phase 1 (forced
placements), phase 2 (greedy passes 4×4, 2×4, 4×2, 2×2, 1×2, 2×1, 1×1),
phase 3 (gap fill), and return true. -/
def GenerateFloor (gridSize : IntPt) (cellSize : ℚ) (target : EGridCellType)
    (floorTilePool : List FMeshPlacementInfo)
    (forcedPlacements : List (IntPt × FMeshPlacementInfo))
    (regions : List FForcedEmptyRegion) (forcedEmptyCells : List IntPt)
    (ρ : Nat → Nat) (σ : Nat → ℚ) (gs : List EGridCellType) :
    Bool × List EGridCellType × List FPlacedMeshInfo :=
  if floorTilePool.length = 0 then (false, gs, [])
  else
    finishFloor
      (FillRemainingGaps gridSize cellSize target floorTilePool ρ σ
        (FillWithTileSize gridSize cellSize target floorTilePool ⟨1, 1⟩ ρ σ
          (FillWithTileSize gridSize cellSize target floorTilePool ⟨2, 1⟩ ρ σ
            (FillWithTileSize gridSize cellSize target floorTilePool ⟨1, 2⟩ ρ σ
              (FillWithTileSize gridSize cellSize target floorTilePool ⟨2, 2⟩ ρ σ
                (FillWithTileSize gridSize cellSize target floorTilePool ⟨4, 2⟩ ρ σ
                  (FillWithTileSize gridSize cellSize target floorTilePool ⟨2, 4⟩ ρ σ
                    (FillWithTileSize gridSize cellSize target floorTilePool ⟨4, 4⟩ ρ σ
                      (startFloorState gridSize cellSize target
                        forcedPlacements regions forcedEmptyCells gs)))))))))

end RoomGen

/-- A concrete wall module for the C6 witness: footprint 1, a loadable
(socketless) base mesh, no upper layers, weight 1. -/
def c6Module : FWallModuleQ := ⟨1, some ⟨[]⟩, none, none, none, 1⟩

/-- Witness for C6: the packing equivalence holds at a concrete 2×2 grid
with one 1-cell module, no doorways and no forced walls. -/
theorem C6_witness :
    RoomGen.FillWallEdge ⟨2, 2⟩ 100 ⟨0, 0, 0, 0⟩ .North [c6Module] [] [] =
      [] ++ WallPackSpec ⟨2, 2⟩ 100 ⟨0, 0, 0, 0⟩ .North [c6Module] [] [] ∧
    (∀ (l : List FWallModuleQ) (M : FWallModuleQ), firstLargest l = some M →
      M ∈ l ∧ ∀ M' ∈ l, M'.yAxisFootprint ≤ M.yAxisFootprint) ∧
    (∀ l : List FWallModuleQ, l ≠ [] → (firstLargest l).isSome = true) :=
  C6_wall_packing_greedy ⟨2, 2⟩ 100 ⟨0, 0, 0, 0⟩ .North [c6Module] [] []
    (by decide) (by decide)

/-- Weighted selection from a one-element pool returns that element for
every random draw: with a positive weight the cumulative scan's first test
either succeeds or falls through to the last (same) element, and with a
nonpositive weight the uniform index `ri % 1 = 0` also picks it. -/
lemma selectWeightedMesh_singleton (m : FMeshPlacementInfo) (ri : Nat)
    (rv : ℚ) : RoomGen.SelectWeightedMesh [m] ri rv = m := by
  unfold RoomGen.SelectWeightedMesh Helpers.SelectWeightedRandom
  simp only [List.length_singleton, List.foldl_cons, List.foldl_nil,
    Nat.mod_one]
  rw [if_neg (by decide)]
  by_cases h : (0 : ℚ) + m.placementWeight ≤ 0
  · rw [if_pos h]
    rfl
  · rw [if_neg h]
    unfold Helpers.selectWeightedScan
    by_cases h2 : rv ≤ 0 + m.placementWeight
    · rw [if_pos h2]
    · rw [if_neg h2]

/-- The per-cell step over a one-element pool with no declared rotations
does not depend on the random streams. -/
lemma fillCellStep_stream_agnostic (gridSize : IntPt) (cellSize : ℚ)
    (target : EGridCellType) (m : FMeshPlacementInfo) (targetSize : IntPt)
    (ρ ρ' : Nat → Nat) (σ σ' : Nat → ℚ)
    (st : List EGridCellType × List RoomGen.FPlacedMeshInfo × Nat) (coord : IntPt)
    (hrot : m.allowedRotations = []) :
    RoomGen.fillCellStep gridSize cellSize target [m] targetSize ρ σ st coord =
      RoomGen.fillCellStep gridSize cellSize target [m] targetSize ρ' σ' st
        coord := by
  unfold RoomGen.fillCellStep
  simp [selectWeightedMesh_singleton, hrot]

/-- The grid sweep over a one-element pool with no declared rotations does
not depend on the random streams. -/
lemma fillSweep_stream_agnostic (gridSize : IntPt) (cellSize : ℚ)
    (target : EGridCellType) (m : FMeshPlacementInfo) (targetSize : IntPt)
    (ρ ρ' : Nat → Nat) (σ σ' : Nat → ℚ)
    (st : List EGridCellType × List RoomGen.FPlacedMeshInfo × Nat)
    (hrot : m.allowedRotations = []) :
    RoomGen.fillSweep gridSize cellSize target [m] targetSize ρ σ st =
      RoomGen.fillSweep gridSize cellSize target [m] targetSize ρ' σ' st := by
  unfold RoomGen.fillSweep
  apply List.foldl_ext
  intro acc y _
  unfold RoomGen.fillRow
  apply List.foldl_ext
  intro acc' x _
  exact fillCellStep_stream_agnostic gridSize cellSize target m targetSize
    ρ ρ' σ σ' acc' ⟨(x : Int), (y : Int)⟩ hrot

/-- `FillWithTileSize` over a one-element pool with no declared rotations
does not depend on the random streams. -/
lemma fillWithTileSize_stream_agnostic (gridSize : IntPt) (cellSize : ℚ)
    (target : EGridCellType) (m : FMeshPlacementInfo) (targetSize : IntPt)
    (ρ ρ' : Nat → Nat) (σ σ' : Nat → ℚ)
    (st : List EGridCellType × List RoomGen.FPlacedMeshInfo × Nat)
    (hrot : m.allowedRotations = []) :
    RoomGen.FillWithTileSize gridSize cellSize target [m] targetSize ρ σ st =
      RoomGen.FillWithTileSize gridSize cellSize target [m] targetSize ρ' σ'
        st := by
  unfold RoomGen.FillWithTileSize
  cases hp : RoomGen.matchesTargetSize targetSize m
  · rw [show List.filter (RoomGen.matchesTargetSize targetSize) [m] = [] by
      simp [List.filter, hp]]
    rfl
  · rw [show List.filter (RoomGen.matchesTargetSize targetSize) [m] = [m] by
      simp [List.filter, hp]]
    rw [if_neg (by simp : ¬([m] : List FMeshPlacementInfo).length = 0),
      if_neg (by simp : ¬([m] : List FMeshPlacementInfo).length = 0)]
    exact fillSweep_stream_agnostic gridSize cellSize target m targetSize
      ρ ρ' σ σ' st hrot

/-- `FillRemainingGaps` over a one-element pool with no declared rotations
does not depend on the random streams. -/
lemma fillRemainingGaps_stream_agnostic (gridSize : IntPt) (cellSize : ℚ)
    (target : EGridCellType) (m : FMeshPlacementInfo)
    (ρ ρ' : Nat → Nat) (σ σ' : Nat → ℚ)
    (st : List EGridCellType × List RoomGen.FPlacedMeshInfo × Nat)
    (hrot : m.allowedRotations = []) :
    RoomGen.FillRemainingGaps gridSize cellSize target [m] ρ σ st =
      RoomGen.FillRemainingGaps gridSize cellSize target [m] ρ' σ' st := by
  unfold RoomGen.FillRemainingGaps
  rw [if_neg (by simp : ¬([m] : List FMeshPlacementInfo).length = 0),
    if_neg (by simp : ¬([m] : List FMeshPlacementInfo).length = 0)]
  apply List.foldl_ext
  intro acc targetSize _
  cases hp : RoomGen.matchesTargetSize targetSize m
  · rw [show List.filter (RoomGen.matchesTargetSize targetSize) [m] = [] by
      simp [List.filter, hp]]
    rfl
  · rw [show List.filter (RoomGen.matchesTargetSize targetSize) [m] = [m] by
      simp [List.filter, hp]]
    rw [if_neg (by simp : ¬([m] : List FMeshPlacementInfo).length = 0),
      if_neg (by simp : ¬([m] : List FMeshPlacementInfo).length = 0)]
    exact fillSweep_stream_agnostic gridSize cellSize target m targetSize
      ρ ρ' σ σ' acc hrot

/-- `GenerateFloor` over a one-element pool with no declared rotations does
not depend on the random streams: the designer phases consume no
randomness, and every weighted draw comes from the singleton pool. -/
lemma generateFloor_stream_agnostic (gridSize : IntPt) (cellSize : ℚ)
    (target : EGridCellType) (m : FMeshPlacementInfo)
    (forcedPlacements : List (IntPt × FMeshPlacementInfo))
    (regions : List FForcedEmptyRegion) (forcedEmptyCells : List IntPt)
    (ρ ρ' : Nat → Nat) (σ σ' : Nat → ℚ) (gs : List EGridCellType)
    (hrot : m.allowedRotations = []) :
    RoomGen.GenerateFloor gridSize cellSize target [m] forcedPlacements
        regions forcedEmptyCells ρ σ gs =
      RoomGen.GenerateFloor gridSize cellSize target [m] forcedPlacements
        regions forcedEmptyCells ρ' σ' gs := by
  unfold RoomGen.GenerateFloor
  rw [if_neg (by simp : ¬([m] : List FMeshPlacementInfo).length = 0),
    if_neg (by simp : ¬([m] : List FMeshPlacementInfo).length = 0)]
  rw [fillWithTileSize_stream_agnostic gridSize cellSize target m ⟨4, 4⟩
    ρ ρ' σ σ' _ hrot]
  rw [fillWithTileSize_stream_agnostic gridSize cellSize target m ⟨2, 4⟩
    ρ ρ' σ σ' _ hrot]
  rw [fillWithTileSize_stream_agnostic gridSize cellSize target m ⟨4, 2⟩
    ρ ρ' σ σ' _ hrot]
  rw [fillWithTileSize_stream_agnostic gridSize cellSize target m ⟨2, 2⟩
    ρ ρ' σ σ' _ hrot]
  rw [fillWithTileSize_stream_agnostic gridSize cellSize target m ⟨1, 2⟩
    ρ ρ' σ σ' _ hrot]
  rw [fillWithTileSize_stream_agnostic gridSize cellSize target m ⟨2, 1⟩
    ρ ρ' σ σ' _ hrot]
  rw [fillWithTileSize_stream_agnostic gridSize cellSize target m ⟨1, 1⟩
    ρ ρ' σ σ' _ hrot]
  rw [fillRemainingGaps_stream_agnostic gridSize cellSize target m
    ρ ρ' σ σ' _ hrot]

/-- The C1 scenario's floor tile: a 1×1 tile of weight 1 with a non-null
mesh and no declared rotations. -/
def c1Tile : FMeshPlacementInfo := ⟨⟨1, 1⟩, [], false, 1⟩

/-- The C1 scenario's forced-empty region: exactly column 9 of the 10×10
grid. -/
def c1Region : FForcedEmptyRegion := ⟨⟨9, 0⟩, ⟨9, 9⟩⟩

/-- The C1 scenario's initial uniform 10×10 grid. -/
def c1Grid : List EGridCellType := List.replicate 100 .ECT_Empty

/-- The C1 scenario run: 10×10 grid, cell size 100, floor target
`ECT_Empty`, tile pool `[c1Tile]`, no forced placements, forced-empty
regions covering column 9, under arbitrary random streams. -/
def c1Run (ρ : Nat → Nat) (σ : Nat → ℚ) :
    Bool × List EGridCellType × List RoomGen.FPlacedMeshInfo :=
  RoomGen.GenerateFloor ⟨10, 10⟩ 100 .ECT_Empty [c1Tile] [] [c1Region] []
    ρ σ c1Grid

/-- The constant-zero index stream. -/
def zeroIdx : Nat → Nat := fun _ => 0

/-- The constant-zero value stream. -/
def zeroVal : Nat → ℚ := fun _ => 0

/-- The C1 scenario's grid after phase 0 and the first `rows` rows of the
1×1 greedy pass: column 9 is `ECT_WallMesh`, the filled rows are
`ECT_FloorMesh`, the rest is `ECT_Empty` (row-major index `y*10 + x`). -/
def c1GridAfter (rows : Nat) : List EGridCellType :=
  (List.range 100).map fun i =>
    if i % 10 = 9 then .ECT_WallMesh
    else if i / 10 < rows then .ECT_FloorMesh
    else .ECT_Empty

/-- The floor record the C1 scenario places at cell `(x, y)`. -/
def c1Rec (x y : Int) : RoomGen.FPlacedMeshInfo :=
  ⟨⟨x, y⟩, ⟨1, 1⟩, 0, c1Tile,
    Helpers.CalculateMeshTransform ⟨x, y⟩ ⟨1, 1⟩ 100 0 0⟩

/-- The first `n` floor records of the C1 scenario, in scan order (9 per
row, x from 0 to 8). -/
def c1Recs (n : Nat) : List RoomGen.FPlacedMeshInfo :=
  (List.range n).map fun i => c1Rec ((i % 9 : Nat) : Int) ((i / 9 : Nat) : Int)

set_option maxRecDepth 20000 in
/-- Phases 0-1 of the C1 scenario, evaluated: column 9 marked
`ECT_WallMesh`, no records, counter 0. -/
lemma c1_startState :
    RoomGen.startFloorState ⟨10, 10⟩ 100 .ECT_Empty [] [c1Region] [] c1Grid =
      (c1GridAfter 0, c1Recs 0, 0) := by
  decide

set_option maxRecDepth 20000 in
set_option allowUnsafeReducibility true in
attribute [local semireducible] Rat.add Rat.mul Rat.sub Rat.inv Rat.ofScientific Rat.divInt in
/-- Row 0 of the C1 scenario's 1×1 greedy pass, evaluated. -/
lemma c1_row0 :
    RoomGen.fillRow ⟨10, 10⟩ 100 .ECT_Empty [c1Tile] ⟨1, 1⟩ zeroIdx zeroVal
      (c1GridAfter 0, c1Recs 0, 0) 0 =
      (c1GridAfter 1, c1Recs 9, 9) := by
  decide

set_option maxRecDepth 20000 in
set_option allowUnsafeReducibility true in
attribute [local semireducible] Rat.add Rat.mul Rat.sub Rat.inv Rat.ofScientific Rat.divInt in
/-- Row 1 of the C1 scenario's 1×1 greedy pass, evaluated. -/
lemma c1_row1 :
    RoomGen.fillRow ⟨10, 10⟩ 100 .ECT_Empty [c1Tile] ⟨1, 1⟩ zeroIdx zeroVal
      (c1GridAfter 1, c1Recs 9, 9) 1 =
      (c1GridAfter 2, c1Recs 18, 18) := by
  decide

set_option maxRecDepth 20000 in
set_option allowUnsafeReducibility true in
attribute [local semireducible] Rat.add Rat.mul Rat.sub Rat.inv Rat.ofScientific Rat.divInt in
/-- Row 2 of the C1 scenario's 1×1 greedy pass, evaluated. -/
lemma c1_row2 :
    RoomGen.fillRow ⟨10, 10⟩ 100 .ECT_Empty [c1Tile] ⟨1, 1⟩ zeroIdx zeroVal
      (c1GridAfter 2, c1Recs 18, 18) 2 =
      (c1GridAfter 3, c1Recs 27, 27) := by
  decide

set_option maxRecDepth 20000 in
set_option allowUnsafeReducibility true in
attribute [local semireducible] Rat.add Rat.mul Rat.sub Rat.inv Rat.ofScientific Rat.divInt in
/-- Row 3 of the C1 scenario's 1×1 greedy pass, evaluated. -/
lemma c1_row3 :
    RoomGen.fillRow ⟨10, 10⟩ 100 .ECT_Empty [c1Tile] ⟨1, 1⟩ zeroIdx zeroVal
      (c1GridAfter 3, c1Recs 27, 27) 3 =
      (c1GridAfter 4, c1Recs 36, 36) := by
  decide

set_option maxRecDepth 20000 in
set_option allowUnsafeReducibility true in
attribute [local semireducible] Rat.add Rat.mul Rat.sub Rat.inv Rat.ofScientific Rat.divInt in
/-- Row 4 of the C1 scenario's 1×1 greedy pass, evaluated. -/
lemma c1_row4 :
    RoomGen.fillRow ⟨10, 10⟩ 100 .ECT_Empty [c1Tile] ⟨1, 1⟩ zeroIdx zeroVal
      (c1GridAfter 4, c1Recs 36, 36) 4 =
      (c1GridAfter 5, c1Recs 45, 45) := by
  decide

set_option maxRecDepth 20000 in
set_option allowUnsafeReducibility true in
attribute [local semireducible] Rat.add Rat.mul Rat.sub Rat.inv Rat.ofScientific Rat.divInt in
/-- Row 5 of the C1 scenario's 1×1 greedy pass, evaluated. -/
lemma c1_row5 :
    RoomGen.fillRow ⟨10, 10⟩ 100 .ECT_Empty [c1Tile] ⟨1, 1⟩ zeroIdx zeroVal
      (c1GridAfter 5, c1Recs 45, 45) 5 =
      (c1GridAfter 6, c1Recs 54, 54) := by
  decide

set_option maxRecDepth 20000 in
set_option allowUnsafeReducibility true in
attribute [local semireducible] Rat.add Rat.mul Rat.sub Rat.inv Rat.ofScientific Rat.divInt in
/-- Row 6 of the C1 scenario's 1×1 greedy pass, evaluated. -/
lemma c1_row6 :
    RoomGen.fillRow ⟨10, 10⟩ 100 .ECT_Empty [c1Tile] ⟨1, 1⟩ zeroIdx zeroVal
      (c1GridAfter 6, c1Recs 54, 54) 6 =
      (c1GridAfter 7, c1Recs 63, 63) := by
  decide

set_option maxRecDepth 20000 in
set_option allowUnsafeReducibility true in
attribute [local semireducible] Rat.add Rat.mul Rat.sub Rat.inv Rat.ofScientific Rat.divInt in
/-- Row 7 of the C1 scenario's 1×1 greedy pass, evaluated. -/
lemma c1_row7 :
    RoomGen.fillRow ⟨10, 10⟩ 100 .ECT_Empty [c1Tile] ⟨1, 1⟩ zeroIdx zeroVal
      (c1GridAfter 7, c1Recs 63, 63) 7 =
      (c1GridAfter 8, c1Recs 72, 72) := by
  decide

set_option maxRecDepth 20000 in
set_option allowUnsafeReducibility true in
attribute [local semireducible] Rat.add Rat.mul Rat.sub Rat.inv Rat.ofScientific Rat.divInt in
/-- Row 8 of the C1 scenario's 1×1 greedy pass, evaluated. -/
lemma c1_row8 :
    RoomGen.fillRow ⟨10, 10⟩ 100 .ECT_Empty [c1Tile] ⟨1, 1⟩ zeroIdx zeroVal
      (c1GridAfter 8, c1Recs 72, 72) 8 =
      (c1GridAfter 9, c1Recs 81, 81) := by
  decide

set_option maxRecDepth 20000 in
set_option allowUnsafeReducibility true in
attribute [local semireducible] Rat.add Rat.mul Rat.sub Rat.inv Rat.ofScientific Rat.divInt in
/-- Row 9 of the C1 scenario's 1×1 greedy pass, evaluated. -/
lemma c1_row9 :
    RoomGen.fillRow ⟨10, 10⟩ 100 .ECT_Empty [c1Tile] ⟨1, 1⟩ zeroIdx zeroVal
      (c1GridAfter 9, c1Recs 81, 81) 9 =
      (c1GridAfter 10, c1Recs 90, 90) := by
  decide

/-- The C1 scenario's full 1×1 sweep, row by row. -/
lemma c1_sweep :
    RoomGen.fillSweep ⟨10, 10⟩ 100 .ECT_Empty [c1Tile] ⟨1, 1⟩ zeroIdx zeroVal
      (c1GridAfter 0, c1Recs 0, 0) = (c1GridAfter 10, c1Recs 90, 90) := by
  unfold RoomGen.fillSweep
  rw [show List.range ((⟨10, 10⟩ : IntPt).y.toNat) =
    [0, 1, 2, 3, 4, 5, 6, 7, 8, 9] from by decide]
  simp only [List.foldl_cons, List.foldl_nil]
  rw [c1_row0, c1_row1, c1_row2, c1_row3, c1_row4, c1_row5, c1_row6, c1_row7,
    c1_row8, c1_row9]

/-- A greedy pass whose size filter matches nothing leaves the state
unchanged. -/
lemma fillWithTileSize_no_match (gridSize : IntPt) (cellSize : ℚ)
    (target : EGridCellType) (tilePool : List FMeshPlacementInfo)
    (targetSize : IntPt) (ρ : Nat → Nat) (σ : Nat → ℚ)
    (st : List EGridCellType × List RoomGen.FPlacedMeshInfo × Nat)
    (h : (tilePool.filter (RoomGen.matchesTargetSize targetSize)).length = 0) :
    RoomGen.FillWithTileSize gridSize cellSize target tilePool targetSize
      ρ σ st = st := by
  unfold RoomGen.FillWithTileSize
  rw [if_pos h]

/-- The C1 scenario's 1×1 greedy pass, evaluated. -/
lemma c1_pass11 :
    RoomGen.FillWithTileSize ⟨10, 10⟩ 100 .ECT_Empty [c1Tile] ⟨1, 1⟩
      zeroIdx zeroVal (c1GridAfter 0, c1Recs 0, 0) =
      (c1GridAfter 10, c1Recs 90, 90) := by
  unfold RoomGen.FillWithTileSize
  rw [show List.filter (RoomGen.matchesTargetSize ⟨1, 1⟩) [c1Tile] = [c1Tile]
    from by decide]
  rw [if_neg (by decide : ¬ ([c1Tile] : List FMeshPlacementInfo).length = 0)]
  exact c1_sweep

set_option maxRecDepth 20000 in
set_option allowUnsafeReducibility true in
attribute [local semireducible] Rat.add Rat.mul Rat.sub Rat.inv Rat.ofScientific Rat.divInt in
/-- The C1 scenario's gap-fill phase, evaluated: the grid is already full,
so every size pass leaves the state unchanged. -/
lemma c1_gaps :
    RoomGen.FillRemainingGaps ⟨10, 10⟩ 100 .ECT_Empty [c1Tile]
      zeroIdx zeroVal (c1GridAfter 10, c1Recs 90, 90) =
      (c1GridAfter 10, c1Recs 90, 90) := by
  decide

/-- The whole C1 scenario at the constant-zero streams, evaluated. -/
lemma c1_run_eval :
    c1Run zeroIdx zeroVal = (true, c1GridAfter 10, c1Recs 90) := by
  show RoomGen.GenerateFloor ⟨10, 10⟩ 100 .ECT_Empty [c1Tile] [] [c1Region]
    [] zeroIdx zeroVal c1Grid = (true, c1GridAfter 10, c1Recs 90)
  unfold RoomGen.GenerateFloor
  rw [if_neg (by decide : ¬ ([c1Tile] : List FMeshPlacementInfo).length = 0)]
  rw [c1_startState]
  rw [fillWithTileSize_no_match ⟨10, 10⟩ 100 .ECT_Empty [c1Tile] ⟨4, 4⟩
    zeroIdx zeroVal _ (by decide)]
  rw [fillWithTileSize_no_match ⟨10, 10⟩ 100 .ECT_Empty [c1Tile] ⟨2, 4⟩
    zeroIdx zeroVal _ (by decide)]
  rw [fillWithTileSize_no_match ⟨10, 10⟩ 100 .ECT_Empty [c1Tile] ⟨4, 2⟩
    zeroIdx zeroVal _ (by decide)]
  rw [fillWithTileSize_no_match ⟨10, 10⟩ 100 .ECT_Empty [c1Tile] ⟨2, 2⟩
    zeroIdx zeroVal _ (by decide)]
  rw [fillWithTileSize_no_match ⟨10, 10⟩ 100 .ECT_Empty [c1Tile] ⟨1, 2⟩
    zeroIdx zeroVal _ (by decide)]
  rw [fillWithTileSize_no_match ⟨10, 10⟩ 100 .ECT_Empty [c1Tile] ⟨2, 1⟩
    zeroIdx zeroVal _ (by decide)]
  rw [c1_pass11]
  rw [c1_gaps]
  rfl

/-- C1 counterexample: the forced-empty cells are marked `ECT_WallMesh`
(`MarkForcedEmptyCells`, RoomGenerator.cpp:491-500), not `ECT_Reserved`, so
the scenario's Reserved count is 0, not 10 (shown at the constant-zero
random streams). -/
theorem C1_counterexample_reserved_count :
    ¬ RoomGen.GetCellCountByType
        (c1Run zeroIdx zeroVal).2.1 .ECT_Reserved = 10 := by
  rw [c1_run_eval]
  decide

/-- C1 (amended): for every pair of random streams, the scenario run (10×10
uniform grid, tile pool one 1×1 tile of weight 1, forced-empty regions
covering exactly column 9) returns true, appends exactly 90 floor placement
records, every record's grid x-coordinate lies in [0, 8], and the
forced-empty column yields 10 cells of the `ECT_WallMesh` state — not
`ECT_Reserved`, whose count is 0. -/
theorem C1_floor_scenario (ρ : Nat → Nat) (σ : Nat → ℚ) :
    (c1Run ρ σ).1 = true ∧
    (c1Run ρ σ).2.2.length = 90 ∧
    (∀ r ∈ (c1Run ρ σ).2.2,
      0 ≤ r.gridPosition.x ∧ r.gridPosition.x ≤ 8) ∧
    RoomGen.GetCellCountByType (c1Run ρ σ).2.1 .ECT_WallMesh = 10 ∧
    RoomGen.GetCellCountByType (c1Run ρ σ).2.1 .ECT_Reserved = 0 := by
  have h : c1Run ρ σ = c1Run zeroIdx zeroVal :=
    generateFloor_stream_agnostic ⟨10, 10⟩ 100 .ECT_Empty c1Tile [] [c1Region]
      [] ρ zeroIdx σ zeroVal c1Grid rfl
  rw [h, c1_run_eval]
  refine ⟨rfl, by decide, by decide, by decide, by decide⟩

end BuildingGen
